import Mathlib

/-!
Verification of the RadarProcessor core against its specification.

The C++ sources are shallowly embedded: 32-bit float arithmetic is
idealised as exact rational arithmetic, and the transcendental library
routines the code calls (cos, sin, sqrt, exp, erf, atan2) are passed in
as explicit function parameters, since the claims under study depend
only on how the surrounding code combines their results, not on their
analytic properties.  Machine floating-point infinity (used by the
virtual ring for an empty segment slot and produced by
std::numeric_limits of float) is modelled as the value none of
Option Rat, with the comparison and min conventions of IEEE infinity
written out at each use site.
-/

namespace RadarProc

/-- Two-dimensional vector, modelling glm::vec2. -/
structure Vec2 where
  x : ℚ
  y : ℚ
deriving DecidableEq, Repr

namespace Vec2

def sub (a b : Vec2) : Vec2 := ⟨a.x - b.x, a.y - b.y⟩

def add (a b : Vec2) : Vec2 := ⟨a.x + b.x, a.y + b.y⟩

def smul (k : ℚ) (a : Vec2) : Vec2 := ⟨k * a.x, k * a.y⟩

end Vec2

/-- Translation of the local helper cross2 in RadarVirtualSensorMapping.cpp:
cross2(a, b) = a.x * b.y - a.y * b.x. -/
def cross2 (a b : Vec2) : ℚ := a.x * b.y - a.y * b.x

/-- The constant kEpsilon = 1e-5F of RadarVirtualSensorMapping.cpp. -/
def kEpsilon : ℚ := 1 / 100000

/-- Exact rational value of the 32-bit float constant glm::two_pi (float)
used by the virtual ring, namely 13176795 * 2 ^ (-21). -/
def kTwoPi : ℚ := 13176795 / 2097152

/-- Truncation toward zero, modelling the C float-to-integer conversion
and the quotient underlying std::fmod. -/
def ratTrunc (q : ℚ) : ℤ := if 0 ≤ q then ⌊q⌋ else ⌈q⌉

/-- Model of std::fmod over the rationals: x - y * trunc (x / y). -/
def ratFmod (x y : ℚ) : ℚ := x - y * (ratTrunc (x / y) : ℚ)

/-- RadarVirtualSensorMapping::normalizeAngle: fmod into (-2 pi, 2 pi),
then shift negative values up by 2 pi. -/
def normalizeAngle (angle : ℚ) : ℚ :=
  let normalized := ratFmod angle kTwoPi
  if normalized < 0 then normalized + kTwoPi else normalized

/-- State of RadarVirtualSensorMapping.  A segmentEndDist entry of none
stands for the float value +infinity. -/
structure RingState where
  vehicleContour : List Vec2
  vehicleCenter : Vec2
  segmentCount : ℕ
  segmentDirections : List Vec2
  segmentStartDist : List ℚ
  segmentEndDist : List (Option ℚ)
  ready : Bool
deriving DecidableEq, Repr

/-- RadarVirtualSensorMapping::segmentIndex: normalise the angle into
[0, 2 pi), scale into segment units, truncate, clamp to count - 1. -/
def segmentIndex (st : RingState) (angle : ℚ) : ℕ :=
  if st.segmentCount = 0 then 0
  else
    let normalized := normalizeAngle angle
    let scale := normalized / kTwoPi
    let idx := (ratTrunc (scale * (st.segmentCount : ℚ))).toNat
    min idx (st.segmentCount - 1)

/-- RadarVirtualSensorMapping::raySegmentIntersection.  Returns the ray
parameter t on a hit, none on a miss. -/
def raySegmentIntersection (origin direction a b : Vec2) : Option ℚ :=
  let edge := b.sub a
  let denom := cross2 direction edge
  if |denom| < kEpsilon then none
  else
    let delta := a.sub origin
    let t := cross2 delta edge / denom
    let u := cross2 delta direction / denom
    if 0 ≤ t ∧ 0 ≤ u ∧ u ≤ 1 then some t else none

/-- Consecutive edges of a closed polygon, pairing each vertex with its
successor modulo the vertex count, as the C++ loops do with (i + 1) % n. -/
def polygonEdges (poly : List Vec2) : List (Vec2 × Vec2) :=
  (List.range poly.length).map fun i =>
    (poly.getD i ⟨0, 0⟩, poly.getD ((i + 1) % poly.length) ⟨0, 0⟩)

/-- Accumulation step shared by the two ray-distance helpers: keep the
smaller of the best distance so far (none meaning +infinity) and a new
hit. -/
def hitMin (acc : Option ℚ) (hit : Option ℚ) : Option ℚ :=
  match hit with
  | none => acc
  | some t =>
    match acc with
    | none => some t
    | some best => some (min best t)

/-- RadarVirtualSensorMapping::contourRayDistance: nearest ray hit over
the contour edges; 0 when the contour is degenerate or nothing is hit
(the isfinite check of the source). -/
def contourRayDistance (contour : List Vec2) (origin direction : Vec2) : ℚ :=
  if contour.length < 3 then 0
  else
    let best := (polygonEdges contour).foldl
      (fun acc e => hitMin acc (raySegmentIntersection origin direction e.1 e.2)) none
    match best with
    | none => 0
    | some t => t

/-- RadarVirtualSensorMapping::polygonRayDistance over a four-point track
footprint; none (+infinity) when nothing is hit. -/
def polygonRayDistance (polygon : List Vec2) (origin direction : Vec2) : Option ℚ :=
  (polygonEdges polygon).foldl
    (fun acc e => hitMin acc (raySegmentIntersection origin direction e.1 e.2)) none

/-- RadarVirtualSensorMapping::setVehicleContour: with at least three
points, recompute the centroid and the per-segment contour distances and
mark the mapper ready; otherwise leave the state unchanged. -/
def setVehicleContour (st : RingState) (contour : List Vec2) : RingState :=
  if contour.length < 3 then st
  else
    let n : ℚ := (contour.length : ℚ)
    let center : Vec2 :=
      ⟨(contour.foldl (fun acc p => acc + p.x) 0) / n,
       (contour.foldl (fun acc p => acc + p.y) 0) / n⟩
    let startDist := (List.range st.segmentCount).map fun i =>
      max 0 (contourRayDistance contour center (st.segmentDirections.getD i ⟨0, 0⟩))
    { st with
      vehicleContour := contour
      vehicleCenter := center
      segmentStartDist := startDist
      ready := true }

/-- RadarVirtualSensorMapping::setSegmentCount.  Returns the new state and
the bool result.  When the clamped count equals the current count and the
direction table is nonempty the call returns false immediately; otherwise
the tables are reallocated, rebuildSegments fills the directions (cosF and
sinF stand for std::cos and std::sin), and a stored contour of at least
three points is re-applied via setVehicleContour. -/
def setSegmentCount (cosF sinF : ℚ → ℚ) (st : RingState) (count : ℕ) :
    RingState × Bool :=
  let clamped := max 3 count
  if clamped = st.segmentCount ∧ st.segmentDirections ≠ [] then (st, false)
  else
    let delta := kTwoPi / (clamped : ℚ)
    let dirs := (List.range clamped).map fun (i : ℕ) =>
      let angle := (((i : ℚ)) + 1 / 2) * delta
      Vec2.mk (cosF angle) (sinF angle)
    let st1 : RingState :=
      { st with
        segmentCount := clamped
        segmentDirections := dirs
        segmentStartDist := List.replicate clamped 0
        segmentEndDist := List.replicate clamped none }
    if 3 ≤ st.vehicleContour.length then (setVehicleContour st1 st.vehicleContour, true)
    else ({ st1 with ready := false }, true)

/-- RadarVirtualSensorMapping::resetSegments: every segment end distance
back to +infinity. -/
def resetSegments (st : RingState) : RingState :=
  { st with segmentEndDist := List.replicate st.segmentEndDist.length none }

/-- One detection step of RadarVirtualSensorMapping::update: record the
detection distance in its angular bin when it lies beyond the contour and
below the current nearest obstacle.  sqrtF and atan2F stand for the float
routines std::sqrt (via glm::length) and std::atan2; a distance below the
current end distance replaces it, where none compares as +infinity. -/
def updateDetection (sqrtF : ℚ → ℚ) (atan2F : ℚ → ℚ → ℚ) (st : RingState)
    (point : Vec2) : RingState :=
  let delta := point.sub st.vehicleCenter
  let distance := sqrtF (delta.x * delta.x + delta.y * delta.y)
  if distance ≤ kEpsilon then st
  else
    let idx := segmentIndex st (atan2F delta.y delta.x)
    if distance ≤ st.segmentStartDist.getD idx 0 + kEpsilon then st
    else
      match st.segmentEndDist.getD idx none with
      | none => { st with segmentEndDist := st.segmentEndDist.set idx (some distance) }
      | some current =>
        if distance < current then
          { st with segmentEndDist := st.segmentEndDist.set idx (some distance) }
        else st

/-- One footprint step of RadarVirtualSensorMapping::update: for every
segment, intersect the segment ray with the footprint polygon and keep
the nearest admissible distance. -/
def updateFootprint (st : RingState) (footprint : List Vec2) : RingState :=
  (List.range st.segmentCount).foldl
    (fun s i =>
      match polygonRayDistance footprint s.vehicleCenter (s.segmentDirections.getD i ⟨0, 0⟩) with
      | none => s
      | some d =>
        if d ≤ kEpsilon then s
        else if d ≤ s.segmentStartDist.getD i 0 + kEpsilon then s
        else
          match s.segmentEndDist.getD i none with
          | none => { s with segmentEndDist := s.segmentEndDist.set i (some d) }
          | some current =>
            if d < current then
              { s with segmentEndDist := s.segmentEndDist.set i (some d) }
            else s) st

/-- RadarVirtualSensorMapping::update: reset the end distances, then fold
the detections and the track footprints. -/
def ringUpdate (sqrtF : ℚ → ℚ) (atan2F : ℚ → ℚ → ℚ) (st : RingState)
    (detections : List Vec2) (footprints : List (List Vec2)) : RingState :=
  let st0 := resetSegments st
  if !st0.ready then st0
  else
    let st1 := detections.foldl (updateDetection sqrtF atan2F) st0
    footprints.foldl updateFootprint st1

/-- State established by the member initialisers of
RadarVirtualSensorMapping before its constructor body runs: the default
segment count of 72 with still-empty tables. -/
def preConstructionRing : RingState :=
  { vehicleContour := []
    vehicleCenter := ⟨0, 0⟩
    segmentCount := 72
    segmentDirections := []
    segmentStartDist := []
    segmentEndDist := []
    ready := false }

/-- The constructor of RadarVirtualSensorMapping: setSegmentCount with the
default count of 72 (which rebuilds, because the tables are empty). -/
def initRing (cosF sinF : ℚ → ℚ) : RingState :=
  (setSegmentCount cosF sinF preConstructionRing 72).1

/-! Concrete virtual-ring scenario used by the claim C4 counterexample and
the claim C9 witness.  The direction oracles are constant stand-ins for
std::cos and std::sin: the refuted behaviour (the early return of
setSegmentCount) does not read the direction values, and the sqrt and
atan2 oracles agree with the exact values of the float routines at the
points where the scenario evaluates them (sqrt 25 = 5, atan2 0 5 = 0). -/
def ringCosConst : ℚ → ℚ := fun _ => 1

def ringSinConst : ℚ → ℚ := fun _ => 0

def squareContour : List Vec2 := [⟨-1, -1⟩, ⟨1, -1⟩, ⟨1, 1⟩, ⟨-1, 1⟩]

/-- Ring state after construction followed by setSegmentCount 8. -/
def ringAfterCount : RingState :=
  (setSegmentCount ringCosConst ringSinConst (initRing ringCosConst ringSinConst) 8).1

/-- Ring state after additionally installing the square contour. -/
def ringAfterContour : RingState := setVehicleContour ringAfterCount squareContour

/-- Ring state after additionally recording the obstacle at (5, 0): its
segment now holds the finite end distance 5. -/
def ringAfterObstacle : RingState :=
  ringUpdate (fun _ => 5) (fun _ _ => 0) ringAfterContour [⟨5, 0⟩] []

/-- Small explicit ring state with segment count 8 and nonempty tables,
used to instantiate the amended claim C4. -/
def ringWitnessState : RingState :=
  { vehicleContour := []
    vehicleCenter := ⟨0, 0⟩
    segmentCount := 8
    segmentDirections := List.replicate 8 ⟨1, 0⟩
    segmentStartDist := List.replicate 8 0
    segmentEndDist := List.replicate 8 none
    ready := false }

/-- FusedRadarMapping::RadarModel. -/
inductive RadarModel where
  | gaussian
  | hits
deriving DecidableEq, Repr

/-- FusedRadarMapping::PlausibilityCombinationMethod. -/
inductive PlausibilityMethod where
  | average
  | product
  | minimum
  | custom
deriving DecidableEq, Repr

/-- FusedRadarMapping::Settings with the default member initialisers of
the header (decimal float literals read as exact rationals). -/
structure GridSettings where
  cellSize : ℚ := 1 / 2
  hitIncrement : ℚ := 1 / 2
  missDecrement : ℚ := 1 / 10
  maxLogOdds : ℚ := 5
  minLogOdds : ℚ := -5
  occupiedThreshold : ℚ := 1 / 5
  mapRadius : ℚ := 60
  radarModel : RadarModel := .gaussian
  enableOccupied : Bool := true
  enableFreespace : Bool := true
  alwaysMapDynamicDetections : Bool := false
  enablePlausibilityScaling : Bool := true
  maxAdditiveProbability : ℚ := 11 / 40
  maxFreeSpaceRange : ℚ := 100
  minRange : ℚ := 1 / 1000000
  minPlausibility : ℚ := 1 / 100
  plausibilityMethod : PlausibilityMethod := .custom
  customCombinationRangeThreshold : ℚ := 10
  plausibilityRangeMidpoint : ℚ := 7
  plausibilityRangeBandwidth : ℚ := 21 / 2
  plausibilityAzimuthMidpoint : ℚ := 65
  plausibilityAzimuthBandwidth : ℚ := 293 / 20
  plausibilityAmplitudeMidpoint : ℚ := -22
  plausibilityAmplitudeBandwidth : ℚ := 879 / 100

/-- The std::clamp call pattern used by FusedRadarMapping: lo when below,
hi when above, the value itself otherwise. -/
def stdClamp (v lo hi : ℚ) : ℚ := if v < lo then lo else if hi < v then hi else v

/-- The anonymous-namespace constant kRadToDeg = 57.2957795F of
FusedRadarMapping.cpp. -/
def kRadToDegMapping : ℚ := 572957795 / 10000000

/-- The growth-rate numerator 4.39444915F of computeGrowthRate. -/
def kGrowthNumerator : ℚ := 439444915 / 100000000

/-- FusedRadarMapping.cpp computeGrowthRate: zero for a non-positive
bandwidth, else the fixed numerator over the bandwidth. -/
def computeGrowthRate (bandwidth : ℚ) : ℚ :=
  if bandwidth ≤ 0 then 0 else kGrowthNumerator / bandwidth

/-- FusedRadarMapping.cpp wrapTo180 via std::fmod. -/
def wrapTo180 (degrees : ℚ) : ℚ :=
  let wrapped := ratFmod (degrees + 180) 360
  if wrapped < 0 then wrapped + 360 - 180 else wrapped - 180

/-- FusedRadarMapping.cpp computeIndividualPlausibility: the logistic
sigmoid with the given growth rate and midpoint; expF stands for
std::exp. -/
def computeIndividualPlausibility (expF : ℚ → ℚ) (value growthRate midpoint : ℚ) : ℚ :=
  1 / (1 + expF (-growthRate * (value - midpoint)))

/-- FusedRadarMapping::updatePlausibilityCache, range entry: the cached
m_rangeGrowthRate (negated, range plausibility falls with range). -/
def rangeGrowthRate (s : GridSettings) : ℚ := -computeGrowthRate s.plausibilityRangeBandwidth

/-- FusedRadarMapping::updatePlausibilityCache, azimuth entry. -/
def azimuthGrowthRate (s : GridSettings) : ℚ := -computeGrowthRate s.plausibilityAzimuthBandwidth

/-- FusedRadarMapping::updatePlausibilityCache, amplitude entry (not
negated, amplitude plausibility grows with amplitude). -/
def amplitudeGrowthRate (s : GridSettings) : ℚ := computeGrowthRate s.plausibilityAmplitudeBandwidth

/-- FusedRadarMapping::computePlausibility.  The cached growth rates are
written as functions of the current settings; the cache is refreshed by
the constructor and applySettings, the only places settings change. -/
def computePlausibility (expF : ℚ → ℚ) (s : GridSettings)
    (range azimuth amplitude : ℚ) : ℚ :=
  if !s.enablePlausibilityScaling then 1
  else
    let rangeComponent :=
      computeIndividualPlausibility expF range (rangeGrowthRate s) s.plausibilityRangeMidpoint
    let azimuthDeg := |wrapTo180 (azimuth * kRadToDegMapping)|
    let azimuthComponent :=
      computeIndividualPlausibility expF azimuthDeg (azimuthGrowthRate s) s.plausibilityAzimuthMidpoint
    let amplitudeComponent :=
      computeIndividualPlausibility expF amplitude (amplitudeGrowthRate s) s.plausibilityAmplitudeMidpoint
    let combined :=
      match s.plausibilityMethod with
      | .average => (rangeComponent + azimuthComponent + amplitudeComponent) / 3
      | .product => rangeComponent * azimuthComponent * amplitudeComponent
      | .minimum => min (min rangeComponent azimuthComponent) amplitudeComponent
      | .custom =>
        if s.customCombinationRangeThreshold < range then
          min rangeComponent azimuthComponent * amplitudeComponent
        else rangeComponent * amplitudeComponent
    stdClamp combined 0 1

/-- State of FusedRadarMapping: the settings, the grid side length and
the row-major log-odds cells. -/
structure GridState where
  settings : GridSettings
  gridSize : ℕ
  logOdds : List ℚ

/-- FusedRadarMapping::initializeGrid, also the effect of construction:
side max(3, ceil(2 mapRadius / cellSize)) and all cells zero. -/
def initializeGrid (s : GridSettings) : GridState :=
  let gridSize := (max 3 ⌈(s.mapRadius * 2) / s.cellSize⌉).toNat
  { settings := s
    gridSize := gridSize
    logOdds := List.replicate (gridSize * gridSize) 0 }

/-- FusedRadarMapping::updateCell: add the delta to the addressed cell
and clamp into the configured log-odds interval. -/
def updateCell (st : GridState) (ix iy : ℕ) (delta : ℚ) : GridState :=
  let idx := iy * st.gridSize + ix
  let current := st.logOdds.getD idx 0
  let next := stdClamp (current + delta) st.settings.minLogOdds st.settings.maxLogOdds
  { st with logOdds := st.logOdds.set idx next }

/-- FusedRadarMapping::reset: every cell back to zero. -/
def gridReset (st : GridState) : GridState :=
  { st with logOdds := List.replicate st.logOdds.length 0 }

/-- FusedRadarMapping::applySettings: replace the settings and
reinitialise (reallocate and zero) the grid. -/
def gridApplySettings (_st : GridState) (s : GridSettings) : GridState :=
  initializeGrid s

/-- One externally observable grid mutation.  Every cell write that
update(points) performs goes through FusedRadarMapping::updateCell: the
occupied paths addGaussian and addHit and the free-space path
addFreespaceCone mutate m_logOdds only via updateCell, with cell indices
and deltas computed from the point, the oracles and the settings.  A call
to update is therefore modelled as a finite sequence of cellUpdate
operations with arbitrary indices and deltas, which over-approximates
the reachable sequences; reset and applySettings are modelled directly. -/
inductive GridOp where
  | reset
  | applySettings (s : GridSettings)
  | cellUpdate (ix iy : ℕ) (delta : ℚ)

/-- Run a sequence of grid operations. -/
def runGridOps (st : GridState) (ops : List GridOp) : GridState :=
  ops.foldl
    (fun s op =>
      match op with
      | .reset => gridReset s
      | .applySettings s2 => gridApplySettings s s2
      | .cellUpdate ix iy delta => updateCell s ix iy delta) st

/-- Every cell of the grid lies in the configured log-odds interval. -/
def cellsInRange (st : GridState) : Prop :=
  ∀ v ∈ st.logOdds, st.settings.minLogOdds ≤ v ∧ v ≤ st.settings.maxLogOdds

/-- Settings whose log-odds interval contains the initialisation value
zero. -/
def zeroAdmissible (s : GridSettings) : Prop := s.minLogOdds ≤ 0 ∧ 0 ≤ s.maxLogOdds

/-- Per-operation side condition for the amended claim C5: any settings
installed via applySettings must also admit zero. -/
def gridOpGood : GridOp → Prop
  | .applySettings s => zeroAdmissible s
  | _ => True

/-- Settings violating the amended precondition: a positive lower
log-odds bound. -/
def badGridSettings : GridSettings :=
  { minLogOdds := 1, maxLogOdds := 2, mapRadius := 1, cellSize := 1 }

/-- Modelled from the spec: growth rate per axis, 4.39444915 divided by
the bandwidth, zero if the bandwidth is not positive. -/
def specGrowthRate (bandwidth : ℚ) : ℚ :=
  if bandwidth ≤ 0 then 0 else kGrowthNumerator / bandwidth

/-- Modelled from the spec: the per-axis sigmoid component
1 / (1 + exp (-g (value - midpoint))). -/
def specSigmoid (expF : ℚ → ℚ) (growth value midpoint : ℚ) : ℚ :=
  1 / (1 + expF (-growth * (value - midpoint)))

/-- Modelled from the spec: the range sigmoid, with the growth rate
negated because range plausibility decreases in the signal. -/
def specSigmaRange (expF : ℚ → ℚ) (s : GridSettings) (range : ℚ) : ℚ :=
  specSigmoid expF (-specGrowthRate s.plausibilityRangeBandwidth) range
    s.plausibilityRangeMidpoint

/-- Modelled from the spec: the azimuth sigmoid over the absolute
wrapped azimuth in degrees, growth rate negated. -/
def specSigmaAzimuth (expF : ℚ → ℚ) (s : GridSettings) (azimuth : ℚ) : ℚ :=
  specSigmoid expF (-specGrowthRate s.plausibilityAzimuthBandwidth)
    (|wrapTo180 (azimuth * kRadToDegMapping)|) s.plausibilityAzimuthMidpoint

/-- Modelled from the spec: the amplitude sigmoid, growth rate not
negated. -/
def specSigmaAmplitude (expF : ℚ → ℚ) (s : GridSettings) (amplitude : ℚ) : ℚ :=
  specSigmoid expF (specGrowthRate s.plausibilityAmplitudeBandwidth) amplitude
    s.plausibilityAmplitudeMidpoint

/-- The anonymous-namespace Sample of odometry_estimator.cpp: cosine and
sine of the detection ISO angle, and the measured range rate. -/
structure Sample where
  cosAngle : ℚ
  sinAngle : ℚ
  rangeRate : ℚ
deriving DecidableEq, Repr

instance : Inhabited Sample := ⟨⟨0, 0, 0⟩⟩

/-- predictedRangeRate of odometry_estimator.cpp. -/
def predictedRangeRate (s : Sample) (vLon vLat : ℚ) : ℚ :=
  -(vLon * s.cosAngle + vLat * s.sinAngle)

/-- solvePair of odometry_estimator.cpp: exact 2x2 solve of the velocity
from two samples; none when the determinant magnitude is below 1e-4. -/
def solvePair (a b : Sample) : Option (ℚ × ℚ) :=
  let a11 := -a.cosAngle
  let a12 := -a.sinAngle
  let a21 := -b.cosAngle
  let a22 := -b.sinAngle
  let det := a11 * a22 - a12 * a21
  if |det| < 1 / 10000 then none
  else some ((a.rangeRate * a22 - a12 * b.rangeRate) / det,
             (a11 * b.rangeRate - a.rangeRate * a21) / det)

/-- OdometrySettings of processing_common.hpp with its defaults.  The two
int fields keep their signed-integer reading. -/
structure OdometrySettings where
  maxIterations : ℤ := 120
  inlierThreshold : ℚ := 7 / 20
  minInliers : ℤ := 6
deriving DecidableEq, Repr

/-- utility::OdometryEstimate, with the three written covariance diagonal
entries kept as fields (indices 0, 4, 8 of the row-major 3 by 3 array;
all other entries are zeroed by the loop at lines 173-176). -/
structure OdometryEstimate where
  timestamp : ℕ := 0
  vLon : ℚ := 0
  vLat : ℚ := 0
  yawRate : ℚ := 0
  cov0 : ℚ := 0
  cov4 : ℚ := 0
  cov8 : ℚ := 0
  inlierCount : ℕ := 0
  valid : Bool := false
deriving DecidableEq, Repr

/-- The threshold actually used: max(0.05, inlierThreshold_mps), line 94. -/
def ransacThreshold (settings : OdometrySettings) : ℚ :=
  max (1 / 20) settings.inlierThreshold

/-- The static_cast of the int minInliers to uint32 at line 135, written
with the wrap-around of the conversion made explicit. -/
def minInliersU (settings : OdometrySettings) : ℕ :=
  ((settings.minInliers % 2 ^ 32)).toNat

/-- The inlier count of a candidate velocity: samples whose residual
against the prediction is within the threshold (lines 116-124). -/
def countInliers (samples : List Sample) (vLon vLat threshold : ℚ) : ℕ :=
  samples.countP fun s => decide (|predictedRangeRate s vLon vLat - s.rangeRate| ≤ threshold)

/-- Running best of the RANSAC loop: velocity pair and its inlier count,
starting from (0, 0) with zero inliers (lines 91-93). -/
structure RansacBest where
  vLon : ℚ
  vLat : ℚ
  inliers : ℕ
deriving DecidableEq, Repr

/-- One iteration of the RANSAC loop (lines 97-132) for a given pair of
drawn indices: solve the two-sample system, count inliers, keep the
candidate only when it strictly beats the best so far (ties first-wins). -/
def ransacStep (samples : List Sample) (threshold : ℚ) (best : RansacBest)
    (draw : ℕ × ℕ) : RansacBest :=
  match solvePair (samples.getD draw.1 default) (samples.getD draw.2 default) with
  | none => best
  | some (vLon, vLat) =>
    let inliers := countInliers samples vLon vLat threshold
    if best.inliers < inliers then ⟨vLon, vLat, inliers⟩ else best

/-- The RANSAC loop.  The index pairs drawn from the seeded mt19937 and
uniform distribution (with redrawing until the second index differs) are
abstracted as an explicit list of draws; the code performs
max(1, maxIterations) draws. -/
def ransacLoop (samples : List Sample) (threshold : ℚ)
    (draws : List (ℕ × ℕ)) : RansacBest :=
  draws.foldl (ransacStep samples threshold) ⟨0, 0, 0⟩

/-- The inlier collection loop of lines 134-147: the samples within the
threshold of the best candidate. -/
def inlierSet (samples : List Sample) (best : RansacBest) (threshold : ℚ) :
    List Sample :=
  samples.filter fun s =>
    decide (|predictedRangeRate s best.vLon best.vLat - s.rangeRate| ≤ threshold)

/-- The sample set the final solve runs over (line 149): the collected
inliers when the best inlier count reaches minInliers, otherwise all
samples. -/
def fitSet (settings : OdometrySettings) (samples : List Sample)
    (draws : List (ℕ × ℕ)) : List Sample :=
  let threshold := ransacThreshold settings
  let best := ransacLoop samples threshold draws
  if minInliersU settings ≤ best.inliers then inlierSet samples best threshold
  else samples

/-- Entry (1,1) of the normal matrix of the stacked system A v = b with
rows (-cos, -sin) and right side rangeRate (lines 155-162). -/
def lsA11 (samples : List Sample) : ℚ :=
  (samples.map fun s => s.cosAngle * s.cosAngle).sum

/-- Off-diagonal entry of the normal matrix. -/
def lsA12 (samples : List Sample) : ℚ :=
  (samples.map fun s => s.cosAngle * s.sinAngle).sum

/-- Entry (2,2) of the normal matrix. -/
def lsA22 (samples : List Sample) : ℚ :=
  (samples.map fun s => s.sinAngle * s.sinAngle).sum

/-- First entry of A transpose times b. -/
def lsB1 (samples : List Sample) : ℚ :=
  (samples.map fun s => -s.cosAngle * s.rangeRate).sum

/-- Second entry of A transpose times b. -/
def lsB2 (samples : List Sample) : ℚ :=
  (samples.map fun s => -s.sinAngle * s.rangeRate).sum

/-- Determinant of the normal matrix. -/
def normalDet (samples : List Sample) : ℚ :=
  lsA11 samples * lsA22 samples - lsA12 samples * lsA12 samples

/-- The least-squares solve of line 164.  Eigen's column-pivoted
Householder QR applied to the stacked system returns, for a matrix of
full column rank, the unique least-squares minimiser, which equals the
normal-equations solution written here by Cramer's rule; the
rank-deficient case (normalDet zero) is modelled as (0, 0) and excluded
by hypothesis where it matters.  The minimiser property is proved below
as leastSquares2_isMin. -/
def leastSquares2 (samples : List Sample) : ℚ × ℚ :=
  let det := normalDet samples
  if det = 0 then (0, 0)
  else ((lsB1 samples * lsA22 samples - lsA12 samples * lsB2 samples) / det,
        (lsA11 samples * lsB2 samples - lsB1 samples * lsA12 samples) / det)

/-- Sum of squared residuals of a candidate velocity over a sample set:
what the least-squares solve of the refit minimises. -/
def residualSS (samples : List Sample) (vLon vLat : ℚ) : ℚ :=
  (samples.map fun s => (predictedRangeRate s vLon vLat - s.rangeRate) ^ 2).sum

/-- RadarOdometryEstimator::processDetections from the collected samples
on (lines 83-181).  Returns none exactly when the function returns false
without writing m_lastEstimate (fewer than two samples, or fewer than two
fit samples); otherwise the estimate written, whose valid bit is also the
return value of the function. -/
def estimateFromSamples (settings : OdometrySettings) (timestamp : ℕ)
    (samples : List Sample) (draws : List (ℕ × ℕ)) : Option OdometryEstimate :=
  if samples.length < 2 then none
  else
    let threshold := ransacThreshold settings
    let best := ransacLoop samples threshold draws
    let useInliers := minInliersU settings ≤ best.inliers
    let fitSamples := fitSet settings samples draws
    if fitSamples.length < 2 then none
    else
      let sol := leastSquares2 fitSamples
      some
        { timestamp := timestamp
          vLon := sol.1
          vLat := sol.2
          yawRate := 0
          cov0 := if useInliers then 1 / (fitSamples.length : ℚ) else 1
          cov4 := if useInliers then 1 / (fitSamples.length : ℚ) else 1
          cov8 := 1
          inlierCount := if useInliers then fitSamples.length else best.inliers
          valid := useInliers }

/-! Concrete odometry scenario for claim C1.  The three samples have unit
direction cosines (boresight and broadside geometry, where the float
cosine and sine are exact): the pair (0, 1) solves to velocity (5, 2)
with 2 inliers, the pair (1, 2) to (0, 2) with 2 inliers, the pair
(0, 2) is degenerate, so for every draw sequence the best inlier count
stays below the default minInliers of 6, while the least-squares refit
over all three samples yields vLon = 5/2, different from every pair
solution.  The draw list models the 120 iterations of the seeded RNG. -/
def exSamples : List Sample := [⟨1, 0, -5⟩, ⟨0, 1, -2⟩, ⟨1, 0, 0⟩]

def exDraws : List (ℕ × ℕ) := List.replicate 120 (0, 1)

/-- The estimate the code writes for exSamples and exDraws. -/
def exEstimate : OdometryEstimate :=
  { timestamp := 1234, vLon := 5 / 2, vLat := 2, yawRate := 0,
    cov0 := 1, cov4 := 1, cov8 := 1, inlierCount := 2, valid := false }

/-- The float library routines the pipeline calls, passed explicitly. -/
structure FloatFns where
  cosF : ℚ → ℚ
  sinF : ℚ → ℚ
  sqrtF : ℚ → ℚ
  erfF : ℚ → ℚ

/-- utility::RadarPose. -/
structure RadarPose where
  longitudinal : ℚ := 0
  lateral : ℚ := 0
  height : ℚ := 0
  orientation : ℚ := 0
deriving DecidableEq, Repr

/-- utility::RadarCalibration. -/
structure RadarCalibration where
  vcs : RadarPose := {}
  iso : RadarPose := {}
  polarity : ℚ := 1
  rangeRateAccuracy : ℚ := 0
  azimuthAccuracy : ℚ := 0
  horizontalFov : ℚ := 0
deriving DecidableEq, Repr

instance : Inhabited RadarCalibration := ⟨{}⟩

/-- utility::VehicleParameters: the calibration table is indexed by the
numeric value of SensorIndex. -/
structure VehicleParameters where
  distRearAxleToFrontBumper : ℚ := 0
  cornerHardwareDelay : ℚ := 0
  frontCenterHardwareDelay : ℚ := 0
  radarCalibrations : List RadarCalibration := List.replicate 6 {}
  contourIso : List Vec2 := []

/-- utility::SensorIndex. -/
inductive SensorIndex where
  | frontLeft
  | frontRight
  | rearLeft
  | rearRight
  | frontShort
  | frontLong
deriving DecidableEq, Repr

/-- The numeric value of the enum, used for array indexing. -/
def SensorIndex.toIdx : SensorIndex → ℕ
  | .frontLeft => 0
  | .frontRight => 1
  | .rearLeft => 2
  | .rearRight => 3
  | .frontShort => 4
  | .frontLong => 5

/-- utility::RawDetectionsHeader. -/
structure RawDetectionsHeader where
  timestamp : ℕ := 0
  horizontalFov : ℚ := 0
  maximumRange : ℚ := 0
  azimuthPolarity : ℚ := 0
  boresightAngle : ℚ := 0
  sensorLongitudinal : ℚ := 0
  sensorLateral : ℚ := 0
deriving DecidableEq, Repr

/-- One return of the parallel arrays in RawCornerDetections or
RawFrontDetections. -/
structure RawDetectionRow where
  range : ℚ := 0
  rangeRate : ℚ := 0
  rangeRateRaw : ℚ := 0
  azimuthRaw : ℚ := 0
  azimuth : ℚ := 0
  amplitude : ℚ := 0
  longitudinalOffset : ℚ := 0
  lateralOffset : ℚ := 0
  motionStatus : ℤ := 0
  radarValid : ℕ := 0
  superResolution : ℕ := 0
  nearTarget : ℕ := 0
  hostClutter : ℕ := 0
  multibounce : ℕ := 0
deriving DecidableEq, Repr

/-- A raw detection frame: header plus rows (64 for corner frames, 128
for front frames in the fixed-size source arrays). -/
structure RawDetectionFrame where
  header : RawDetectionsHeader := {}
  rows : List RawDetectionRow := []

/-- utility::packDetectionFlags: the five flag bytes packed into a uint8,
with the final cast made explicit as a reduction mod 256. -/
def packDetectionFlags (radarValid superResolution nearTarget hostClutter multibounce : ℕ) : ℕ :=
  (radarValid + superResolution * 2 + nearTarget * 4 + hostClutter * 8 + multibounce * 16) % 256

/-- utility::EnhancedDetection with its member defaults. -/
structure EnhancedDetection where
  range : ℚ := 0
  rangeRate : ℚ := 0
  rangeRateRaw : ℚ := 0
  azimuthRaw : ℚ := 0
  azimuth : ℚ := 0
  amplitude : ℚ := 0
  longitudinalOffset : ℚ := 0
  lateralOffset : ℚ := 0
  motionStatus : ℤ := -1
  flags : ℕ := 0
  fusedTrackIndex : ℤ := -1
  isStationary : ℕ := 0
  isMoveable : ℕ := 0
  isStatic : ℕ := 0
  stationaryProbability : ℚ := 0
deriving DecidableEq, Repr

/-- utility::EnhancedDetections. -/
structure EnhancedDetections where
  header : RawDetectionsHeader := {}
  detections : List EnhancedDetection := []

/-- One track slot of the parallel arrays in utility::RawTrackFusion.
The status byte keeps its numeric value; 0 is TrackStatus::Invalid.
Object classes: 1 Car, 2 Motorcycle, 3 Truck, 9 Bicycle. -/
structure RawTrackRow where
  lonPos : ℚ := 0
  latPos : ℚ := 0
  latVel : ℚ := 0
  lonVel : ℚ := 0
  latAcc : ℚ := 0
  lonAcc : ℚ := 0
  heading : ℚ := 0
  headingRate : ℚ := 0
  trackLength : ℚ := 0
  trackWidth : ℚ := 0
  trackHeight : ℚ := 0
  probOfDet : ℚ := 0
  id : ℤ := 0
  objectClassification : ℕ := 0
  objectClassificationConfidence : ℕ := 0
  status : ℕ := 0
  movingFlag : ℕ := 0
  stationaryFlag : ℕ := 0
  moveableFlag : ℕ := 0
  vehicleFlag : ℕ := 0
deriving DecidableEq, Repr

/-- utility::EnhancedTrack. -/
structure EnhancedTrack where
  vcsLongitudinalPosition : ℚ := 0
  vcsLateralPosition : ℚ := 0
  vcsLateralVelocity : ℚ := 0
  vcsLongitudinalVelocity : ℚ := 0
  vcsLateralAcceleration : ℚ := 0
  vcsLongitudinalAcceleration : ℚ := 0
  vcsHeading : ℚ := 0
  vcsHeadingRate : ℚ := 0
  length : ℚ := 0
  width : ℚ := 0
  height : ℚ := 0
  probabilityOfDetection : ℚ := 0
  id : ℤ := -1
  objectClassification : ℕ := 0
  objectClassificationConfidence : ℕ := 0
  isMoving : Bool := false
  isStationary : Bool := false
  isMoveable : Bool := false
  isVehicle : Bool := false
  status : ℕ := 0
deriving DecidableEq, Repr

/-- utility::EnhancedTracks. -/
structure EnhancedTracks where
  timestamp : ℕ := 0
  tracks : List EnhancedTrack := []

/-- RadarProcessingPipeline::TrackState. -/
structure TrackState where
  position : Vec2 := ⟨0, 0⟩
  velocity : Vec2 := ⟨0, 0⟩
  acceleration : Vec2 := ⟨0, 0⟩
  length : ℚ := 0
  width : ℚ := 0
  height : ℚ := 0
  heading : ℚ := 0
  headingRate : ℚ := 0
  isStationary : Bool := false
  isMoveable : Bool := false
  movingVotes : ℚ := 0
deriving DecidableEq, Repr

instance : Inhabited TrackState := ⟨{}⟩

/-- The per-track fields the claim C2 discusses apart from the
moving-votes accumulator. -/
def TrackState.core (t : TrackState) :=
  (t.position, t.velocity, t.acceleration, t.length, t.width, t.height,
   t.heading, t.headingRate, t.isStationary, t.isMoveable)

/-- RadarProcessingPipeline::SensorUpdateState. -/
structure SensorUpdateState where
  initialized : Bool := false
  timestamp : ℕ := 0
  numConsecutiveInvalid : ℕ := 0
deriving DecidableEq, Repr

instance : Inhabited SensorUpdateState := ⟨{}⟩

/-- utility::VehicleMotionState. -/
structure VehicleMotionState where
  vLon : ℚ := 0
  vLat : ℚ := 0
  yawRate : ℚ := 0
  vLonVariance : ℚ := 1 / 10
  vLatVariance : ℚ := 1 / 10
  yawRateVariance : ℚ := 1 / 10
deriving DecidableEq, Repr

/-- DetectionAssociationSettings of processing_common.hpp. -/
structure DetectionAssociationSettings where
  boundingBoxScale : ℚ := 11 / 10
  rangeRateSigma : ℚ := 3
  velocityVariance : ℚ := 1 / 20
  headingRateVariance : ℚ := 1 / 20
deriving DecidableEq, Repr

/-- StationaryClassificationSettings of processing_common.hpp. -/
structure StationaryClassificationSettings where
  nSigma : ℚ := 3
deriving DecidableEq, Repr

/-- ProcessingSettings of processing_common.hpp. -/
structure ProcessingSettings where
  association : DetectionAssociationSettings := {}
  stationary : StationaryClassificationSettings := {}
  odometry : OdometrySettings := {}
deriving DecidableEq, Repr

/-- The full state of a RadarProcessingPipeline instance, including the
last estimate held by the embedded RadarOdometryEstimator. -/
structure PipelineState where
  settings : ProcessingSettings := {}
  parameters : Option VehicleParameters := none
  sensorStates : List SensorUpdateState := List.replicate 6 {}
  tracks : List TrackState := []
  tracksTimestamp : ℕ := 0
  motionState : VehicleMotionState := {}
  hasExternalMotionState : Bool := false
  estimatorLast : OdometryEstimate := {}
  lastOdometry : OdometryEstimate := {}

/-- The pipeline constructor with given settings: null parameters, six
uninitialised sensor slots, empty track snapshot, default motion state
and invalid odometry estimates. -/
def initPipeline (settings : ProcessingSettings) : PipelineState :=
  { settings := settings }

/-- RadarProcessingPipeline::initialize. -/
def initializePipeline (st : PipelineState) (params : VehicleParameters) : PipelineState :=
  { st with parameters := some params }

/-- RadarProcessingPipeline::updateVehicleState. -/
def updateVehicleState (st : PipelineState) (motion : VehicleMotionState) : PipelineState :=
  { st with motionState := motion, hasExternalMotionState := true }

/-- RadarProcessingPipeline::updateSensorStatus (lines 204-224): first
frame initialises the slot and is live; a strictly newer timestamp
updates the slot, zeroes the invalid count and is live; otherwise the
uint32 invalid count is incremented (mod 2^32) and the frame is not
live. -/
def updateSensorStatus (st : PipelineState) (sensor : SensorIndex) (ts : ℕ) :
    PipelineState × Bool :=
  let state := st.sensorStates.getD sensor.toIdx default
  if !state.initialized then
    let entry : SensorUpdateState :=
      { initialized := true, timestamp := ts, numConsecutiveInvalid := 0 }
    ({ st with sensorStates := st.sensorStates.set sensor.toIdx entry }, true)
  else if state.timestamp < ts then
    let entry := { state with timestamp := ts, numConsecutiveInvalid := 0 }
    ({ st with sensorStates := st.sensorStates.set sensor.toIdx entry }, true)
  else
    let entry :=
      { state with numConsecutiveInvalid := (state.numConsecutiveInvalid + 1) % 2 ^ 32 }
    ({ st with sensorStates := st.sensorStates.set sensor.toIdx entry }, false)

/-- The per-return mapping of mapCornerDetections / mapFrontDetections:
copy the raw fields and pack the flags; the remaining enhanced fields
keep their member defaults and are overwritten by classification. -/
def mapDetectionRow (r : RawDetectionRow) : EnhancedDetection :=
  { range := r.range
    rangeRate := r.rangeRate
    rangeRateRaw := r.rangeRateRaw
    azimuthRaw := r.azimuthRaw
    azimuth := r.azimuth
    amplitude := r.amplitude
    longitudinalOffset := r.longitudinalOffset
    lateralOffset := r.lateralOffset
    motionStatus := r.motionStatus
    flags := packDetectionFlags r.radarValid r.superResolution r.nearTarget
      r.hostClutter r.multibounce }

/-- RadarProcessingPipeline::mapCornerDetections: header copied, every
row mapped. -/
def mapCornerDetections (input : RawDetectionFrame) : EnhancedDetections :=
  { header := input.header, detections := input.rows.map mapDetectionRow }

/-- RadarProcessingPipeline::mapFrontDetections: the first 64 rows feed
the short output, the remainder the long output, both under the single
front header. -/
def mapFrontDetections (input : RawDetectionFrame) :
    EnhancedDetections × EnhancedDetections :=
  ({ header := input.header, detections := (input.rows.take 64).map mapDetectionRow },
   { header := input.header, detections := (input.rows.drop 64).map mapDetectionRow })

/-- detectionAngleRad of processing_pipeline.cpp. -/
def detectionAngleRad (d : EnhancedDetection) (cal : RadarCalibration) : ℚ :=
  -d.azimuthRaw * cal.polarity + cal.iso.orientation

/-- The shared residual variance max(squared(max(0.01, accuracy / 3)), 1e-4)
under the square root of the Mahalanobis denominators. -/
def rangeRateVar (cal : RadarCalibration) : ℚ :=
  max (1 / 100) (cal.rangeRateAccuracy / 3) ^ 2

/-- RadarProcessingPipeline::classifyDetections: per detection, reset the
association fields, yaw-compensate the Doppler, compare with the
ego-motion prediction and threshold the Mahalanobis distance. -/
def classifyDetections (fns : FloatFns) (settings : ProcessingSettings)
    (cal : RadarCalibration) (motion : VehicleMotionState)
    (dets : List EnhancedDetection) : List EnhancedDetection :=
  dets.map fun d =>
    let detAngle := detectionAngleRad d cal
    let yawTerm := motion.yawRate *
      (cal.iso.longitudinal * fns.sinF detAngle - cal.iso.lateral * fns.cosF detAngle)
    let compensated := d.rangeRate + yawTerm
    let predicted := -(motion.vLon * fns.cosF detAngle + motion.vLat * fns.sinF detAngle)
    let mDist := |compensated - predicted| / fns.sqrtF (max (rangeRateVar cal) (1 / 10000))
    let isStationary : ℕ := if mDist ≤ settings.stationary.nSigma then 1 else 0
    { d with
      fusedTrackIndex := -1
      isMoveable := 0
      isStationary := isStationary
      stationaryProbability := stdClamp (1 - fns.erfF (mDist / fns.sqrtF 2)) 0 1
      isStatic := isStationary }

/-- RadarProcessingPipeline::detectionPositionVcs. -/
def detectionPositionVcs (fns : FloatFns) (d : EnhancedDetection)
    (cal : RadarCalibration) : Vec2 :=
  let lon0 := d.longitudinalOffset
  let lat0 := d.lateralOffset
  let lon1 := if lon0 = 0 ∧ lat0 = 0 ∧ 0 < d.range then d.range * fns.cosF d.azimuth else lon0
  let lat1 := if lon0 = 0 ∧ lat0 = 0 ∧ 0 < d.range then d.range * fns.sinF d.azimuth else lat0
  let detAngle := -d.azimuthRaw * cal.polarity + cal.vcs.orientation
  let lon2 := if lon1 = 0 ∧ lat1 = 0 ∧ 0 < d.range then d.range * fns.cosF detAngle else lon1
  let lat2 := if lon1 = 0 ∧ lat1 = 0 ∧ 0 < d.range then d.range * fns.sinF detAngle else lat1
  ⟨lon2 + cal.vcs.longitudinal, lat2 + cal.vcs.lateral⟩

/-- The OrientedBox of the association step. -/
structure OrientedBox where
  center : Vec2
  halfLength : ℚ
  halfWidth : ℚ
  heading : ℚ
deriving DecidableEq, Repr

instance : Inhabited OrientedBox := ⟨⟨⟨0, 0⟩, 0, 0, 0⟩⟩

/-- OrientedBox::contains: rotate the offset into the box frame and test
both half extents. -/
def boxContains (fns : FloatFns) (box : OrientedBox) (point : Vec2) : Prop :=
  let delta := point.sub box.center
  let cosH := fns.cosF (-box.heading)
  let sinH := fns.sinF (-box.heading)
  let localX := delta.x * cosH - delta.y * sinH
  let localY := delta.x * sinH + delta.y * cosH
  |localX| ≤ box.halfLength ∧ |localY| ≤ box.halfWidth

instance (fns : FloatFns) (box : OrientedBox) (point : Vec2) :
    Decidable (boxContains fns box point) := by
  unfold boxContains
  exact instDecidableAnd

/-- The predicted box of one track at the observation time (lines
334-342). -/
def predictedBox (settings : ProcessingSettings) (dt : ℚ) (track : TrackState) :
    OrientedBox :=
  { center := (track.position.add ((track.velocity.smul dt).add
      (track.acceleration.smul (1 / 2 * dt * dt))))
    halfLength := max track.length (1 / 10) * (1 / 2) * settings.association.boundingBoxScale
    halfWidth := max track.width (1 / 10) * (1 / 2) * settings.association.boundingBoxScale
    heading := track.heading + track.headingRate * dt }

/-- The candidate search of lines 359-384: among the boxes containing
the detection, the index minimising the range-rate Mahalanobis distance,
subject to the sigma gate; none when no candidate passes. -/
def bestCandidate (fns : FloatFns) (settings : ProcessingSettings)
    (motion : VehicleMotionState) (varTerm : ℚ) (boxes : List OrientedBox)
    (tracks : List TrackState) (detPos : Vec2) (modelX modelY rangeRate : ℚ) :
    Option (ℕ × ℚ) :=
  (List.range boxes.length).foldl
    (fun best i =>
      if boxContains fns (boxes.getD i default) detPos then
        let track := tracks.getD i default
        let relVelX := motion.vLon - track.velocity.x
        let relVelY := motion.vLat - track.velocity.y
        let predicted := relVelX * modelX + relVelY * modelY
        let mDist := |rangeRate - predicted| / fns.sqrtF varTerm
        match best with
        | none => if mDist ≤ settings.association.rangeRateSigma then some (i, mDist) else best
        | some (_, bestDist) =>
          if mDist ≤ settings.association.rangeRateSigma ∧ mDist < bestDist then
            some (i, mDist)
          else best
      else best) none

/-- utility::clamp (math_utils.hpp): min(maxValue, max(minValue, value)). -/
def utilClamp (v lo hi : ℚ) : ℚ := min hi (max lo v)

/-- The per-detection association and vote update of lines 347-401,
threading the mutable track snapshot. -/
def associateOne (fns : FloatFns) (settings : ProcessingSettings)
    (cal : RadarCalibration) (motion : VehicleMotionState) (varTerm : ℚ)
    (boxes : List OrientedBox) (acc : List TrackState × List EnhancedDetection)
    (d : EnhancedDetection) : List TrackState × List EnhancedDetection :=
  let tracks := acc.1
  let outs := acc.2
  if d.flags &&& 3 = 0 then (tracks, outs ++ [d])
  else
    let detPos := detectionPositionVcs fns d cal
    let detAngle := detectionAngleRad d cal
    let modelX := -fns.cosF detAngle
    let modelY := -fns.sinF detAngle
    match bestCandidate fns settings motion varTerm boxes tracks detPos modelX modelY
        d.rangeRate with
    | none => (tracks, outs ++ [d])
    | some (bestIndex, _) =>
      let track := tracks.getD bestIndex default
      let voteApplies := ¬track.isMoveable
      let newVotes :=
        if voteApplies then
          let vote := if d.isStationary ≠ 0 then -d.stationaryProbability
            else 1 - d.stationaryProbability
          utilClamp (track.movingVotes + vote) (-100) 100
        else track.movingVotes
      let updated := { track with movingVotes := newVotes }
      let tracks2 := if voteApplies then tracks.set bestIndex updated else tracks
      let moveable : ℕ :=
        if voteApplies then (if 0 < newVotes then 1 else 0)
        else 1
      let d2 :=
        { d with
          isMoveable := moveable
          isStatic := if d.isStationary ≠ 0 ∧ moveable = 0 then 1 else 0
          fusedTrackIndex := (bestIndex : ℤ) }
      (tracks2, outs ++ [d2])

/-- RadarProcessingPipeline::associateDetections (lines 312-402): build
the predicted boxes once, then fold the detections, updating the
moving-votes of the picked tracks along the way.  Returns the updated
snapshot and the annotated detections. -/
def associateDetections (fns : FloatFns) (settings : ProcessingSettings)
    (cal : RadarCalibration) (motion : VehicleMotionState)
    (tracksTimestamp obsTime : ℕ) (tracks : List TrackState)
    (dets : List EnhancedDetection) : List TrackState × List EnhancedDetection :=
  if tracks.isEmpty then (tracks, dets)
  else
    let dt : ℚ := ((if tracksTimestamp < obsTime then obsTime - tracksTimestamp else 0 : ℕ) : ℚ)
      * (1 / 1000000)
    let boxes := tracks.map (predictedBox settings dt)
    let varTerm := max (rangeRateVar cal) (1 / 10000)
    dets.foldl (associateOne fns settings cal motion varTerm boxes) (tracks, [])

/-- The track-state record built for each surviving slot in
processTrackFusion (lines 180-192). -/
def trackStateOfRow (r : RawTrackRow) : TrackState :=
  { position := ⟨r.lonPos, r.latPos⟩
    velocity := ⟨r.lonVel, r.latVel⟩
    acceleration := ⟨r.lonAcc, r.latAcc⟩
    length := r.trackLength
    width := r.trackWidth
    height := r.trackHeight
    heading := r.heading
    headingRate := r.headingRate
    isStationary := r.stationaryFlag ≠ 0
    isMoveable := r.moveableFlag ≠ 0
    movingVotes := 0 }

/-- The EnhancedTrack record built for each surviving slot in
processTrackFusion (lines 156-178). -/
def enhancedTrackOfRow (r : RawTrackRow) : EnhancedTrack :=
  { vcsLongitudinalPosition := r.lonPos
    vcsLateralPosition := r.latPos
    vcsLateralVelocity := r.latVel
    vcsLongitudinalVelocity := r.lonVel
    vcsLateralAcceleration := r.latAcc
    vcsLongitudinalAcceleration := r.lonAcc
    vcsHeading := r.heading
    vcsHeadingRate := r.headingRate
    length := r.trackLength
    width := r.trackWidth
    height := r.trackHeight
    probabilityOfDetection := r.probOfDet
    id := r.id
    objectClassification := r.objectClassification
    objectClassificationConfidence := r.objectClassificationConfidence
    isMoving := r.movingFlag ≠ 0
    isStationary := r.stationaryFlag ≠ 0
    isMoveable := r.moveableFlag ≠ 0
    isVehicle := r.vehicleFlag ≠ 0
    status := r.status }

/-- The emitted track list: every slot whose status is not Invalid (0). -/
def enhancedTracksOfInput (input : List RawTrackRow) : List EnhancedTrack :=
  input.filterMap fun r => if r.status = 0 then none else some (enhancedTrackOfRow r)

/-- The replacement track snapshot: same surviving slots. -/
def trackStatesOfInput (input : List RawTrackRow) : List TrackState :=
  input.filterMap fun r => if r.status = 0 then none else some (trackStateOfRow r)

/-- RadarProcessingPipeline::processTrackFusion (lines 140-196): clears
and rebuilds both the emitted list and the internal snapshot from the
input alone, and records the track timestamp. -/
def processTrackFusion (st : PipelineState) (ts : ℕ) (input : List RawTrackRow) :
    PipelineState × EnhancedTracks :=
  ({ st with tracks := trackStatesOfInput input, tracksTimestamp := ts },
   { timestamp := ts, tracks := enhancedTracksOfInput input })

/-- The sample collection loop of RadarOdometryEstimator::processDetections
(lines 62-81): detections with Valid or SuperResolution set (the finite
range-rate check always passes in the exact model). -/
def collectSamples (fns : FloatFns) (cal : RadarCalibration)
    (dets : List EnhancedDetection) : List Sample :=
  dets.filterMap fun d =>
    if d.flags &&& 3 = 0 then none
    else
      let angle := -d.azimuthRaw * cal.polarity + cal.iso.orientation
      some ⟨fns.cosF angle, fns.sinF angle, d.rangeRate⟩

/-- The odometry feedback block shared by the corner and front paths
(lines 88-97 and 125-135): when no external motion state has been
supplied, run the estimator on the enhanced detections; a written
estimate replaces the estimator state, and a valid one is copied into
the pipeline's last odometry and motion state. -/
def odometryFeedback (fns : FloatFns) (st : PipelineState) (cal : RadarCalibration)
    (headerTs : ℕ) (dets : List EnhancedDetection) (draws : List (ℕ × ℕ)) :
    PipelineState :=
  if st.hasExternalMotionState then st
  else
    let samples := collectSamples fns cal dets
    match estimateFromSamples st.settings.odometry headerTs samples draws with
    | none => st
    | some est =>
      let st1 := { st with estimatorLast := est }
      if est.valid then
        { st1 with
          lastOdometry := est
          motionState := { st1.motionState with
            vLon := est.vLon, vLat := est.vLat, yawRate := est.yawRate } }
      else st1

/-- The saturating observation time t_us minus the hardware delay in
microseconds (delay seconds truncated to uint64 after scaling). -/
def observationTime (ts : ℕ) (delaySeconds : ℚ) : ℕ :=
  let delayUs := (ratTrunc (delaySeconds * 1000000)).toNat
  if delayUs < ts then ts - delayUs else 0

/-- RadarProcessingPipeline::processCornerDetections (lines 68-100).
Returns the final state, the bool result, and the written output (none
exactly on the uninitialised early return, which touches nothing). -/
def processCornerDetections (fns : FloatFns) (st : PipelineState)
    (sensor : SensorIndex) (ts : ℕ) (input : RawDetectionFrame)
    (draws : List (ℕ × ℕ)) : PipelineState × Bool × Option EnhancedDetections :=
  match st.parameters with
  | none => (st, false, none)
  | some params =>
    let su := updateSensorStatus st sensor input.header.timestamp
    let st1 := su.1
    let updateValid := su.2
    let out0 := mapCornerDetections input
    let obsTime := observationTime ts params.cornerHardwareDelay
    let cal := params.radarCalibrations.getD sensor.toIdx default
    let dets1 := classifyDetections fns st1.settings cal st1.motionState out0.detections
    let assoc := associateDetections fns st1.settings cal st1.motionState
      st1.tracksTimestamp obsTime st1.tracks dets1
    let st2 := { st1 with tracks := assoc.1 }
    let out := { out0 with detections := assoc.2 }
    let st3 := odometryFeedback fns st2 cal input.header.timestamp out.detections draws
    (st3, if updateValid then st3.lastOdometry.valid else false, some out)

/-- RadarProcessingPipeline::processFrontDetections (lines 102-138).
Both sensors are updated from the same header; the short and long halves
are classified and associated in order, and the odometry runs on the
short output with the FrontShort calibration. -/
def processFrontDetections (fns : FloatFns) (st : PipelineState) (ts : ℕ)
    (input : RawDetectionFrame) (draws : List (ℕ × ℕ)) :
    PipelineState × Bool × Option (EnhancedDetections × EnhancedDetections) :=
  match st.parameters with
  | none => (st, false, none)
  | some params =>
    let suShort := updateSensorStatus st SensorIndex.frontShort input.header.timestamp
    let suLong := updateSensorStatus suShort.1 SensorIndex.frontLong input.header.timestamp
    let st1 := suLong.1
    let mapped := mapFrontDetections input
    let obsTime := observationTime ts params.frontCenterHardwareDelay
    let calShort := params.radarCalibrations.getD SensorIndex.frontShort.toIdx default
    let calLong := params.radarCalibrations.getD SensorIndex.frontLong.toIdx default
    let detsS1 := classifyDetections fns st1.settings calShort st1.motionState
      mapped.1.detections
    let assocS := associateDetections fns st1.settings calShort st1.motionState
      st1.tracksTimestamp obsTime st1.tracks detsS1
    let st2 := { st1 with tracks := assocS.1 }
    let detsL1 := classifyDetections fns st2.settings calLong st2.motionState
      mapped.2.detections
    let assocL := associateDetections fns st2.settings calLong st2.motionState
      st2.tracksTimestamp obsTime st2.tracks detsL1
    let st3 := { st2 with tracks := assocL.1 }
    let outShort := { mapped.1 with detections := assocS.2 }
    let outLong := { mapped.2 with detections := assocL.2 }
    let st4 := odometryFeedback fns st3 calShort input.header.timestamp
      outShort.detections draws
    (st4, if suShort.2 ∧ suLong.2 then st4.lastOdometry.valid else false,
      some (outShort, outLong))

/-- RadarTrack of RadarPlayback.hpp, as filled by appendTracks. -/
structure RadarTrack where
  isoPosition : Vec2 := ⟨0, 0⟩
  isoVelocity : Vec2 := ⟨0, 0⟩
  length : ℚ := 0
  width : ℚ := 0
  height : ℚ := 0
  headingRad : ℚ := 0
  headingRate : ℚ := 0
  probabilityOfDetection : ℚ := 0
  id : ℤ := 0
  objectClassification : ℕ := 0
  objectClassificationConfidence : ℕ := 0
  isMoving : Bool := false
  isStationary : Bool := false
  isMoveable : Bool := false
  isVehicle : Bool := false
deriving DecidableEq, Repr

/-- The per-track conversion of appendTracks in RadarPlayback.cpp (lines
628-668): extents clamped to kMinTrackExtent = 0.25, and a zero height
imputed by object class (1.8 for Car, Motorcycle and Bicycle, 3.8 for
Truck, 0.05 otherwise). -/
def radarTrackOfEnhanced (t : EnhancedTrack) : RadarTrack :=
  let height0 := t.height
  { isoPosition := ⟨t.vcsLongitudinalPosition, t.vcsLateralPosition⟩
    isoVelocity := ⟨t.vcsLongitudinalVelocity, t.vcsLateralVelocity⟩
    length := max t.length (1 / 4)
    width := max t.width (1 / 4)
    height :=
      if height0 = 0 then
        if t.objectClassification = 1 ∨ t.objectClassification = 2 ∨
            t.objectClassification = 9 then 9 / 5
        else if t.objectClassification = 3 then 19 / 5
        else 1 / 20
      else height0
    headingRad := t.vcsHeading
    headingRate := t.vcsHeadingRate
    probabilityOfDetection := t.probabilityOfDetection
    id := t.id
    objectClassification := t.objectClassification
    objectClassificationConfidence := t.objectClassificationConfidence
    isMoving := t.isMoving
    isStationary := t.isStationary
    isMoveable := t.isMoveable
    isVehicle := t.isVehicle }

/-- appendTracks of RadarPlayback.cpp (lines 618-670): skip Invalid
status, convert the rest. -/
def appendTracks (tracks : List EnhancedTrack) : List RadarTrack :=
  tracks.filterMap fun t =>
    if t.status = 0 then none else some (radarTrackOfEnhanced t)

/-- The composed per-slot emission of a track-fusion frame through
processTrackFusion and appendTracks. -/
def radarTrackOfRow (r : RawTrackRow) : RadarTrack :=
  radarTrackOfEnhanced (enhancedTrackOfRow r)

/-- A Car (class 1) slot with zero height, for the claim C3 witness. -/
def exZeroHeightRow : RawTrackRow :=
  { lonPos := 2, status := 5, objectClassification := 1 }

/-- A live first-sensor slot at timestamp 1000, for the claim C7
witness. -/
def exLiveState : SensorUpdateState :=
  { initialized := true, timestamp := 1000, numConsecutiveInvalid := 0 }

def exLivePipeline : PipelineState :=
  { initPipeline {} with sensorStates := exLiveState :: List.replicate 5 {} }

/-- Oracles for the concrete pipeline scenario.  Every call whose value
influences the run is at an argument where the float routine is exact:
cosine and sine are evaluated only at 0 (all angles and headings in the
scenario are 0), and the square root only at 1/4 (the residual variance
for a range-rate accuracy of 1.5); erf is evaluated at 0. -/
def exFns : FloatFns :=
  { cosF := fun _ => 1
    sinF := fun _ => 0
    sqrtF := fun q => if q = 1 / 4 then 1 / 2 else 1
    erfF := fun _ => 0 }

/-- Calibration used by the scenario: polarity 1, range-rate accuracy
1.5, ISO mount one metre ahead, everything else zero. -/
def exCal : RadarCalibration :=
  { iso := { longitudinal := 1 }, polarity := 1, rangeRateAccuracy := 3 / 2 }

def exParams : VehicleParameters :=
  { radarCalibrations := List.replicate 6 exCal }

/-- One valid track slot: position (1,1), extents 4 by 2, status
Updated (5), not marked moveable so that association votes apply. -/
def exTrackRow : RawTrackRow :=
  { lonPos := 1, latPos := 1, trackLength := 4, trackWidth := 2, trackHeight := 8 / 5,
    probOfDet := 4 / 5, id := 42, status := 5, movingFlag := 1, vehicleFlag := 1,
    objectClassification := 1 }

/-- One valid detection at offsets (1,1), zero azimuth and range rate. -/
def exDetRow : RawDetectionRow :=
  { range := 10, longitudinalOffset := 1, lateralOffset := 1, radarValid := 1 }

def exCornerFrame : RawDetectionFrame :=
  { header := { timestamp := 1000, azimuthPolarity := 1 }, rows := [exDetRow] }

/-- Initialised pipeline with an externally supplied (zero) motion
state. -/
def exPipeline0 : PipelineState :=
  updateVehicleState (initializePipeline (initPipeline {}) exParams) {}

/-! Theorems and supporting lemmas. -/

/-! Helper lemmas about the virtual-ring embedding. -/
lemma kTwoPi_pos : (0 : ℚ) < kTwoPi := by norm_num [kTwoPi]

lemma normalizeAngle_nonneg (a : ℚ) : 0 ≤ normalizeAngle a := by
  have hpos := kTwoPi_pos
  unfold normalizeAngle ratFmod ratTrunc
  set q := a / kTwoPi with hq
  have ha : a = q * kTwoPi := by
    field_simp [hq]
  by_cases h : 0 ≤ q
  · have hfl : (⌊q⌋ : ℚ) ≤ q := Int.floor_le q
    have hr0 : 0 ≤ a - kTwoPi * (⌊q⌋ : ℚ) := by
      rw [ha]
      nlinarith
    simp only [if_pos h]
    rw [if_neg (not_lt.mpr hr0)]
    exact hr0
  · have hcl : q ≤ (⌈q⌉ : ℚ) := Int.le_ceil q
    have hcu : (⌈q⌉ : ℚ) < q + 1 := Int.ceil_lt_add_one q
    simp only [if_neg h]
    by_cases hneg : a - kTwoPi * (⌈q⌉ : ℚ) < 0
    · rw [if_pos hneg]
      rw [ha]
      nlinarith
    · rw [if_neg hneg]
      exact not_lt.mp hneg

lemma normalizeAngle_lt (a : ℚ) : normalizeAngle a < kTwoPi := by
  have hpos := kTwoPi_pos
  unfold normalizeAngle ratFmod ratTrunc
  set q := a / kTwoPi with hq
  have ha : a = q * kTwoPi := by
    field_simp [hq]
  by_cases h : 0 ≤ q
  · have hfu : q < (⌊q⌋ : ℚ) + 1 := Int.lt_floor_add_one q
    have hfl : (⌊q⌋ : ℚ) ≤ q := Int.floor_le q
    have hr0 : 0 ≤ a - kTwoPi * (⌊q⌋ : ℚ) := by
      rw [ha]; nlinarith
    simp only [if_pos h]
    rw [if_neg (not_lt.mpr hr0)]
    rw [ha]
    nlinarith
  · have hcl : q ≤ (⌈q⌉ : ℚ) := Int.le_ceil q
    simp only [if_neg h]
    have hr1 : a - kTwoPi * (⌈q⌉ : ℚ) ≤ 0 := by
      rw [ha]; nlinarith
    by_cases hneg : a - kTwoPi * (⌈q⌉ : ℚ) < 0
    · rw [if_pos hneg]
      linarith
    · rw [if_neg hneg]
      linarith

lemma segmentIndex_lt_count (st : RingState) (angle : ℚ)
    (h : 0 < st.segmentCount) : segmentIndex st angle < st.segmentCount := by
  unfold segmentIndex
  rw [if_neg (Nat.pos_iff_ne_zero.mp h)]
  dsimp only
  exact lt_of_le_of_lt (Nat.min_le_right _ _) (Nat.sub_lt h Nat.one_pos)

lemma setVehicleContour_segmentCount (st : RingState) (c : List Vec2) :
    (setVehicleContour st c).segmentCount = st.segmentCount := by
  unfold setVehicleContour
  split <;> rfl

lemma setVehicleContour_segmentDirections (st : RingState) (c : List Vec2) :
    (setVehicleContour st c).segmentDirections = st.segmentDirections := by
  unfold setVehicleContour
  split <;> rfl

lemma setVehicleContour_segmentEndDist (st : RingState) (c : List Vec2) :
    (setVehicleContour st c).segmentEndDist = st.segmentEndDist := by
  unfold setVehicleContour
  split <;> rfl

lemma setSegmentCount_fst_count (f g : ℚ → ℚ) (st : RingState) (n : ℕ) :
    ((setSegmentCount f g st n).1).segmentCount = max 3 n := by
  unfold setSegmentCount
  by_cases h : max 3 n = st.segmentCount ∧ st.segmentDirections ≠ []
  · rw [if_pos h]
    exact h.1.symm
  · rw [if_neg h]
    by_cases hc : 3 ≤ st.vehicleContour.length
    · rw [if_pos hc, setVehicleContour_segmentCount]
    · rw [if_neg hc]

lemma setSegmentCount_fst_dirs_ne (f g : ℚ → ℚ) (st : RingState) (n : ℕ) :
    ((setSegmentCount f g st n).1).segmentDirections ≠ [] := by
  unfold setSegmentCount
  by_cases h : max 3 n = st.segmentCount ∧ st.segmentDirections ≠ []
  · rw [if_pos h]
    exact h.2
  · rw [if_neg h]
    dsimp only
    by_cases hc : 3 ≤ st.vehicleContour.length
    · rw [if_pos hc, setVehicleContour_segmentDirections]
      intro hnil
      have hlen := congrArg List.length hnil
      simp only [List.length_map, List.length_range, List.length_nil] at hlen
      omega
    · rw [if_neg hc]
      intro hnil
      have hlen := congrArg List.length hnil
      simp only [List.length_map, List.length_range, List.length_nil] at hlen
      omega

lemma setSegmentCount_noop (f g : ℚ → ℚ) (st : RingState) (n : ℕ)
    (h : max 3 n = st.segmentCount ∧ st.segmentDirections ≠ []) :
    setSegmentCount f g st n = (st, false) := by
  unfold setSegmentCount
  rw [if_pos h]

/-- Claim C4 is false on the code: when the clamped requested count equals
the current count and the direction table is nonempty, setSegmentCount
returns false immediately and does not reset segmentEndDist.  In the
reachable state ringAfterObstacle (constructor, setSegmentCount 8,
setVehicleContour, update with an obstacle at (5, 0)) the entry for
segment 0 is the finite distance 5, and calling setSegmentCount 8 again
leaves it equal to 5 instead of +infinity. -/
theorem claim_C4_counterexample :
    ((setSegmentCount ringCosConst ringSinConst ringAfterObstacle 8).1).segmentEndDist.getD 0 none
        = some 5 ∧
    ((setSegmentCount ringCosConst ringSinConst ringAfterObstacle 8).1).segmentEndDist.getD 0 none
        ≠ none := by
  have h : ((setSegmentCount ringCosConst ringSinConst ringAfterObstacle 8).1).segmentEndDist.getD
      0 none = some 5 := by
    norm_num [ringAfterObstacle, ringAfterContour, ringAfterCount, squareContour,
      ringCosConst, ringSinConst, initRing, preConstructionRing,
      setSegmentCount, setVehicleContour, ringUpdate, resetSegments,
      updateDetection, updateFootprint, segmentIndex, normalizeAngle, ratFmod,
      ratTrunc, contourRayDistance, polygonEdges, raySegmentIntersection,
      hitMin, cross2, Vec2.sub, kEpsilon, kTwoPi, List.range_succ,
      List.cons_ne_nil]
  refine ⟨h, ?_⟩
  rw [h]
  simp

/-- Claim C4, amended: setSegmentCount resets every segmentEndDist entry
to +infinity only when the clamped count differs from the current count
or the direction table is empty; when the clamped count equals the
current count and the direction table is nonempty, the call is a no-op
returning false and the previous end distances (finite or not) survive. -/
theorem claim_C4_amended (f g : ℚ → ℚ) (st : RingState) (n : ℕ) :
    (max 3 n = st.segmentCount ∧ st.segmentDirections ≠ [] →
      setSegmentCount f g st n = (st, false)) ∧
    (¬(max 3 n = st.segmentCount ∧ st.segmentDirections ≠ []) →
      ∀ e ∈ ((setSegmentCount f g st n).1).segmentEndDist, e = none) := by
  constructor
  · intro hcond
    unfold setSegmentCount
    rw [if_pos hcond]
  · intro hcond
    unfold setSegmentCount
    rw [if_neg hcond]
    dsimp only
    by_cases hc : 3 ≤ st.vehicleContour.length
    · rw [if_pos hc]
      dsimp only
      rw [setVehicleContour_segmentEndDist]
      intro e he
      exact List.eq_of_mem_replicate he
    · rw [if_neg hc]
      intro e he
      exact List.eq_of_mem_replicate he

/-- Witness for the amended claim C4: on a concrete state with count 8,
requesting 8 is a no-op returning false, while requesting 16 resets every
end distance to +infinity. -/
theorem claim_C4_amended_witness :
    setSegmentCount ringCosConst ringSinConst ringWitnessState 8 = (ringWitnessState, false) ∧
    (∀ e ∈ ((setSegmentCount ringCosConst ringSinConst ringWitnessState 16).1).segmentEndDist,
      e = none) :=
  ⟨(claim_C4_amended ringCosConst ringSinConst ringWitnessState 8).1
      (by refine ⟨by decide, ?_⟩; simp [ringWitnessState]),
   (claim_C4_amended ringCosConst ringSinConst ringWitnessState 16).2
      (by intro hcond; have := hcond.1; simp [ringWitnessState] at this)⟩

/-- Claim C9: the call sequence set_segment_count S, set_vehicle_contour C,
set_segment_count S (same S at least 3, contour of at least 3 points)
leaves segment_start_dist exactly as the contour call produced it: the
repeated count request hits the early return and changes nothing. -/
theorem claim_C9 (f g : ℚ → ℚ) (st : RingState) (S : ℕ) (C : List Vec2)
    (hS : 3 ≤ S) (hC : 3 ≤ C.length) :
    ((setSegmentCount f g (setVehicleContour ((setSegmentCount f g st S).1) C) S).1).segmentStartDist
      = (setVehicleContour ((setSegmentCount f g st S).1) C).segmentStartDist := by
  have hcond : max 3 S = (setVehicleContour ((setSegmentCount f g st S).1) C).segmentCount ∧
      (setVehicleContour ((setSegmentCount f g st S).1) C).segmentDirections ≠ [] := by
    constructor
    · rw [setVehicleContour_segmentCount, setSegmentCount_fst_count]
    · rw [setVehicleContour_segmentDirections]
      exact setSegmentCount_fst_dirs_ne f g st S
  rw [setSegmentCount_noop f g _ S hcond]

/-- Witness for claim C9 at the concrete scenario: segment count 8 and the
square contour. -/
theorem claim_C9_witness :
    ((setSegmentCount ringCosConst ringSinConst
        (setVehicleContour ((setSegmentCount ringCosConst ringSinConst
          (initRing ringCosConst ringSinConst) 8).1) squareContour) 8).1).segmentStartDist
      = (setVehicleContour ((setSegmentCount ringCosConst ringSinConst
          (initRing ringCosConst ringSinConst) 8).1) squareContour).segmentStartDist :=
  claim_C9 ringCosConst ringSinConst (initRing ringCosConst ringSinConst) 8 squareContour
    (by decide) (by decide)

/-- Claim C10: for every input angle and every ready ring state with at
least 3 segments whose distance tables have the proper length, the
angular-bin index is strictly below the segment count, because the angle
is first normalised into the interval from 0 inclusive to 2 pi exclusive
and the truncated index is then clamped to count - 1; hence the accesses
update() performs on segment_start_dist and segment_end_dist at that
index are in bounds. -/
theorem claim_C10 (st : RingState) (angle : ℚ) (h3 : 3 ≤ st.segmentCount)
    (hs : st.segmentStartDist.length = st.segmentCount)
    (he : st.segmentEndDist.length = st.segmentCount) :
    0 ≤ normalizeAngle angle ∧ normalizeAngle angle < kTwoPi ∧
    segmentIndex st angle < st.segmentStartDist.length ∧
    segmentIndex st angle < st.segmentEndDist.length := by
  have hlt : segmentIndex st angle < st.segmentCount :=
    segmentIndex_lt_count st angle (by omega)
  exact ⟨normalizeAngle_nonneg angle, normalizeAngle_lt angle,
    by rw [hs]; exact hlt, by rw [he]; exact hlt⟩

/-- Witness for claim C10 at a concrete state (count 8, tables of length
8) and the concrete angle 7, which exceeds 2 pi and so exercises the
normalisation. -/
theorem claim_C10_witness :
    0 ≤ normalizeAngle 7 ∧ normalizeAngle 7 < kTwoPi ∧
    segmentIndex ringWitnessState 7 < ringWitnessState.segmentStartDist.length ∧
    segmentIndex ringWitnessState 7 < ringWitnessState.segmentEndDist.length :=
  claim_C10 ringWitnessState 7 (by decide)
    (by simp [ringWitnessState]) (by simp [ringWitnessState])

lemma stdClamp_mem (v lo hi : ℚ) (h : lo ≤ hi) :
    lo ≤ stdClamp v lo hi ∧ stdClamp v lo hi ≤ hi := by
  unfold stdClamp
  split_ifs with h1 h2 <;> constructor <;> linarith

lemma cellsInRange_initializeGrid (s : GridSettings) (h : zeroAdmissible s) :
    cellsInRange (initializeGrid s) := by
  intro v hv
  have hz := List.eq_of_mem_replicate hv
  subst hz
  exact ⟨h.1, h.2⟩

lemma cellsInRange_runGridOps (st : GridState) (ops : List GridOp)
    (hst : cellsInRange st) (hgood : zeroAdmissible st.settings)
    (hops : ∀ op ∈ ops, gridOpGood op) :
    cellsInRange (runGridOps st ops) := by
  induction ops generalizing st with
  | nil => exact hst
  | cons op rest ih =>
    have hop := hops op (List.mem_cons_self op rest)
    have hrest : ∀ o ∈ rest, gridOpGood o := fun o ho => hops o (List.mem_cons_of_mem op ho)
    cases op with
    | reset =>
      refine ih (gridReset st) ?_ hgood hrest
      intro v hv
      have hz := List.eq_of_mem_replicate hv
      subst hz
      exact ⟨hgood.1, hgood.2⟩
    | applySettings s2 =>
      exact ih (gridApplySettings st s2) (cellsInRange_initializeGrid s2 hop) hop hrest
    | cellUpdate ix iy delta =>
      refine ih (updateCell st ix iy delta) ?_ hgood hrest
      intro v hv
      rcases List.mem_or_eq_of_mem_set hv with hmem | heq
      · exact hst v hmem
      · subst heq
        exact stdClamp_mem _ _ _ (le_trans hgood.1 hgood.2)

/-- Claim C5 as stated is false for arbitrary bounds: with
min_log_odds = 1 and max_log_odds = 2 the freshly constructed grid holds
cells at 0, outside [1, 2], already after the empty sequence of updates
(and any cell not touched by later updates stays there). -/
theorem claim_C5_counterexample :
    (runGridOps (initializeGrid badGridSettings) []).logOdds.getD 0 0 <
      (runGridOps (initializeGrid badGridSettings) []).settings.minLogOdds := by
  norm_num [runGridOps, initializeGrid, badGridSettings, List.foldl]

/-- Claim C5, amended: provided the initial settings and every settings
record later installed through applySettings place zero inside the
log-odds interval (as the defaults -5 and 5 do), every cell value after
any sequence of reset, applySettings and update-induced cell writes lies
in the current [min_log_odds, max_log_odds]. -/
theorem claim_C5_amended (s0 : GridSettings) (ops : List GridOp)
    (h0 : zeroAdmissible s0) (hops : ∀ op ∈ ops, gridOpGood op) :
    cellsInRange (runGridOps (initializeGrid s0) ops) :=
  cellsInRange_runGridOps (initializeGrid s0) ops
    (cellsInRange_initializeGrid s0 h0) h0 hops

/-- Witness for the amended claim C5: the default settings, one in-range
write, a reset and a settings change. -/
theorem claim_C5_amended_witness :
    cellsInRange (runGridOps (initializeGrid {})
      [GridOp.cellUpdate 0 0 10, GridOp.reset,
       GridOp.applySettings { maxLogOdds := 3 }, GridOp.cellUpdate 1 1 (-7)]) :=
  claim_C5_amended {} _ (by constructor <;> norm_num)
    (by
      intro op hop
      simp only [List.mem_cons, List.not_mem_nil, or_false] at hop
      rcases hop with h | h | h | h <;> subst h <;>
        simp [gridOpGood, zeroAdmissible])

lemma stdClamp_zero_one (v : ℚ) : stdClamp v 0 1 = max 0 (min 1 v) := by
  unfold stdClamp
  split_ifs with h1 h2
  · rw [min_eq_right (by linarith), max_eq_left (by linarith)]
  · rw [min_eq_left (by linarith), max_eq_right (by linarith)]
  · rw [min_eq_right (by linarith), max_eq_right (by linarith)]

/-- Claim C8: with plausibility scaling disabled the plausibility is
exactly 1; with scaling enabled, the Custom combination method and a
custom combination range threshold of 10, it is the clamp into [0, 1]
of (min of range and azimuth sigmoids, for range above 10, else the
range sigmoid) times the amplitude sigmoid, each sigmoid as the spec
defines it. -/
theorem claim_C8 (expF : ℚ → ℚ) (s : GridSettings) (range azimuth amplitude : ℚ) :
    computePlausibility expF { s with enablePlausibilityScaling := false }
        range azimuth amplitude = 1 ∧
    computePlausibility expF
        { s with
          enablePlausibilityScaling := true
          plausibilityMethod := PlausibilityMethod.custom
          customCombinationRangeThreshold := 10 } range azimuth amplitude
      = max 0 (min 1
          ((if 10 < range then
              min (specSigmaRange expF s range) (specSigmaAzimuth expF s azimuth)
            else specSigmaRange expF s range) * specSigmaAmplitude expF s amplitude)) := by
  constructor
  · simp [computePlausibility]
  · simp only [computePlausibility, specSigmaRange, specSigmaAzimuth, specSigmaAmplitude,
      specSigmoid, computeIndividualPlausibility, rangeGrowthRate, azimuthGrowthRate,
      amplitudeGrowthRate, computeGrowthRate, specGrowthRate, stdClamp_zero_one,
      Bool.not_true, Bool.false_eq_true, if_false]
    split_ifs with h <;> rfl

lemma foldl_replicate_fix {α β : Type} (step : β → α → β) (b : β) (d : α)
    (hb : step b d = b) (n : ℕ) : (List.replicate n d).foldl step b = b := by
  induction n with
  | zero => rfl
  | succ k ih => rw [List.replicate_succ, List.foldl_cons, hb, ih]

lemma exSolve : solvePair (exSamples.getD 0 default) (exSamples.getD 1 default)
    = some (5, 2) := by
  norm_num [solvePair, exSamples]

lemma exCount : countInliers exSamples 5 2 (ransacThreshold {}) = 2 := by
  norm_num [countInliers, exSamples, List.countP_cons, List.countP_nil,
    decide_eq_true_eq, predictedRangeRate, ransacThreshold, max_def]

lemma exStep0 : ransacStep exSamples (ransacThreshold {}) ⟨0, 0, 0⟩ (0, 1) = ⟨5, 2, 2⟩ := by
  unfold ransacStep
  rw [exSolve]
  simp only [exCount]
  norm_num

lemma exStepFix : ransacStep exSamples (ransacThreshold {}) ⟨5, 2, 2⟩ (0, 1) = ⟨5, 2, 2⟩ := by
  unfold ransacStep
  rw [exSolve]
  simp only [exCount]
  norm_num

lemma exLoop : ransacLoop exSamples (ransacThreshold {}) exDraws = ⟨5, 2, 2⟩ := by
  unfold ransacLoop exDraws
  rw [show (120 : ℕ) = 119 + 1 from rfl, List.replicate_succ, List.foldl_cons, exStep0]
  exact foldl_replicate_fix _ _ _ exStepFix 119

lemma exEst : estimateFromSamples {} 1234 exSamples exDraws = some exEstimate := by
  simp only [estimateFromSamples, fitSet, exEstimate]
  rw [exLoop]
  norm_num [exSamples, minInliersU, leastSquares2, normalDet, lsA11, lsA12, lsA22,
    lsB1, lsB2, inlierSet, decide_eq_true_eq]

lemma exFitSet : fitSet {} exSamples exDraws = exSamples := by
  simp only [fitSet]
  rw [exLoop]
  norm_num [minInliersU]

lemma sum_sq_nonneg (l : List Sample) (f : Sample → ℚ) :
    0 ≤ (l.map fun s => f s ^ 2).sum := by
  induction l with
  | nil => simp
  | cons a t ih =>
    simp only [List.map_cons, List.sum_cons]
    have := sq_nonneg (f a)
    linarith

lemma sum_res_cos (samples : List Sample) (v l : ℚ) :
    (samples.map fun s => (predictedRangeRate s v l - s.rangeRate) * s.cosAngle).sum
      = -(v * lsA11 samples) - l * lsA12 samples + lsB1 samples := by
  induction samples with
  | nil => simp [lsA11, lsA12, lsB1]
  | cons a t ih =>
    simp only [lsA11, lsA12, lsB1, List.map_cons, List.sum_cons] at ih ⊢
    rw [ih]
    simp only [predictedRangeRate]
    ring

lemma sum_res_sin (samples : List Sample) (v l : ℚ) :
    (samples.map fun s => (predictedRangeRate s v l - s.rangeRate) * s.sinAngle).sum
      = -(v * lsA12 samples) - l * lsA22 samples + lsB2 samples := by
  induction samples with
  | nil => simp [lsA12, lsA22, lsB2]
  | cons a t ih =>
    simp only [lsA12, lsA22, lsB2, List.map_cons, List.sum_cons] at ih ⊢
    rw [ih]
    simp only [predictedRangeRate]
    ring

lemma residualSS_shift (samples : List Sample) (v l dv dl : ℚ) :
    residualSS samples (v + dv) (l + dl)
      = residualSS samples v l
        - 2 * dv * (samples.map fun s => (predictedRangeRate s v l - s.rangeRate) * s.cosAngle).sum
        - 2 * dl * (samples.map fun s => (predictedRangeRate s v l - s.rangeRate) * s.sinAngle).sum
        + (samples.map fun s => (dv * s.cosAngle + dl * s.sinAngle) ^ 2).sum := by
  induction samples with
  | nil => simp [residualSS]
  | cons a t ih =>
    simp only [residualSS, List.map_cons, List.sum_cons] at ih ⊢
    rw [ih]
    simp only [predictedRangeRate]
    ring

lemma leastSquares2_normal_cos (samples : List Sample) (h : normalDet samples ≠ 0) :
    (samples.map fun s =>
      (predictedRangeRate s (leastSquares2 samples).1 (leastSquares2 samples).2
        - s.rangeRate) * s.cosAngle).sum = 0 := by
  rw [sum_res_cos]
  unfold leastSquares2
  rw [if_neg h]
  dsimp only
  unfold normalDet at h ⊢
  field_simp
  ring

lemma leastSquares2_normal_sin (samples : List Sample) (h : normalDet samples ≠ 0) :
    (samples.map fun s =>
      (predictedRangeRate s (leastSquares2 samples).1 (leastSquares2 samples).2
        - s.rangeRate) * s.sinAngle).sum = 0 := by
  rw [sum_res_sin]
  unfold leastSquares2
  rw [if_neg h]
  dsimp only
  unfold normalDet at h ⊢
  field_simp
  ring

/-- The normal-equations solution minimises the sum of squared residuals
over the fit set whenever the normal matrix is invertible: what the
column-pivoted QR refit of the source computes. -/
lemma leastSquares2_isMin (samples : List Sample) (h : normalDet samples ≠ 0) (w z : ℚ) :
    residualSS samples (leastSquares2 samples).1 (leastSquares2 samples).2
      ≤ residualSS samples w z := by
  have hshift := residualSS_shift samples (leastSquares2 samples).1 (leastSquares2 samples).2
      (w - (leastSquares2 samples).1) (z - (leastSquares2 samples).2)
  rw [leastSquares2_normal_cos samples h, leastSquares2_normal_sin samples h] at hshift
  have harg1 : (leastSquares2 samples).1 + (w - (leastSquares2 samples).1) = w := by ring
  have harg2 : (leastSquares2 samples).2 + (z - (leastSquares2 samples).2) = z := by ring
  rw [harg1, harg2] at hshift
  have hnn := sum_sq_nonneg samples
      (fun s => (w - (leastSquares2 samples).1) * s.cosAngle
        + (z - (leastSquares2 samples).2) * s.sinAngle)
  rw [hshift]
  linarith

/-- Claim C1 is false on the code: with the default settings (minInliers
6) and the three-sample batch exSamples, the best RANSAC candidate over
the 120 draws is the pair solution vLon = 5 with 2 inliers, below
minInliers, yet the written estimate reports vLon = 5/2 - the
least-squares refit over all three samples - instead of keeping the best
pair velocity as the claim states.  The same holds for every other draw
sequence, since every nondegenerate pair of these samples solves to
vLon = 5 or vLon = 0 with 2 inliers. -/
theorem claim_C1_counterexample :
    (ransacLoop exSamples (ransacThreshold {}) exDraws).vLon = 5 ∧
    (ransacLoop exSamples (ransacThreshold {}) exDraws).inliers = 2 ∧
    2 < minInliersU {} ∧
    (estimateFromSamples {} 1234 exSamples exDraws).map OdometryEstimate.vLon
      = some (5 / 2) := by
  refine ⟨by rw [exLoop], by rw [exLoop], by norm_num [minInliersU], ?_⟩
  rw [exEst]
  rfl

/-- Claim C1, amended: whenever processDetections writes an estimate from
a collected sample batch (abstracting the RNG index stream as the draw
list), the estimate is valid exactly when the best RANSAC inlier count
reaches minInliers, and its velocity is the least-squares minimiser of
the residual sum of squares over the fit set - the collected inliers in
the valid case, but ALL samples (not the best RANSAC pair, as the claim
stated) in the invalid case - assuming the fit set is nondegenerate. -/
theorem claim_C1_amended (settings : OdometrySettings) (ts : ℕ)
    (samples : List Sample) (draws : List (ℕ × ℕ)) (est : OdometryEstimate)
    (hres : estimateFromSamples settings ts samples draws = some est)
    (hdet : normalDet (fitSet settings samples draws) ≠ 0) :
    est.valid = decide (minInliersU settings ≤
        (ransacLoop samples (ransacThreshold settings) draws).inliers) ∧
    (∀ w z : ℚ, residualSS (fitSet settings samples draws) est.vLon est.vLat
        ≤ residualSS (fitSet settings samples draws) w z) ∧
    est.yawRate = 0 ∧ est.timestamp = ts ∧
    (¬ minInliersU settings ≤ (ransacLoop samples (ransacThreshold settings) draws).inliers →
      fitSet settings samples draws = samples) := by
  unfold estimateFromSamples at hres
  by_cases h1 : samples.length < 2
  · rw [if_pos h1] at hres
    exact absurd hres (by simp)
  rw [if_neg h1] at hres
  dsimp only at hres
  by_cases h2 : (fitSet settings samples draws).length < 2
  · rw [if_pos h2] at hres
    exact absurd hres (by simp)
  rw [if_neg h2] at hres
  have hrec := Option.some.inj hres
  subst hrec
  refine ⟨rfl, ?_, rfl, rfl, ?_⟩
  · intro w z
    simpa using leastSquares2_isMin _ hdet w z
  · intro h
    unfold fitSet
    rw [if_neg h]

/-- Witness for the amended claim C1 at the concrete batch exSamples with
the default settings: the written estimate is invalid (2 inliers below
minInliers 6) and its velocity (5/2, 2) beats, for example, the
candidate (4, 4) in residual sum of squares over all three samples. -/
theorem claim_C1_amended_witness :
    exEstimate.valid = decide (minInliersU {} ≤
        (ransacLoop exSamples (ransacThreshold {}) exDraws).inliers) ∧
    residualSS (fitSet {} exSamples exDraws) exEstimate.vLon exEstimate.vLat
      ≤ residualSS (fitSet {} exSamples exDraws) 4 4 ∧
    ¬ minInliersU {} ≤ (ransacLoop exSamples (ransacThreshold {}) exDraws).inliers := by
  have hdet : normalDet (fitSet {} exSamples exDraws) ≠ 0 := by
    rw [exFitSet]
    norm_num [normalDet, lsA11, lsA12, lsA22, exSamples]
  have h := claim_C1_amended {} 1234 exSamples exDraws exEstimate exEst hdet
  refine ⟨h.1, h.2.1 4 4, ?_⟩
  rw [exLoop]
  norm_num [minInliersU]

/-! Pipeline helper lemmas and the claims C2, C3, C6, C7. -/
lemma getD_set_self {α : Type} (l : List α) (i : ℕ) (a d : α) (h : i < l.length) :
    (l.set i a).getD i d = a := by
  simp [List.getD, List.getElem?_set_self h]

lemma updateSensorStatus_tracks (st : PipelineState) (sensor : SensorIndex) (ts : ℕ) :
    ((updateSensorStatus st sensor ts).1).tracks = st.tracks := by
  simp only [updateSensorStatus]
  split
  · rfl
  · split <;> rfl

lemma odometryFeedback_tracks (fns : FloatFns) (st : PipelineState)
    (cal : RadarCalibration) (headerTs : ℕ) (dets : List EnhancedDetection)
    (draws : List (ℕ × ℕ)) :
    (odometryFeedback fns st cal headerTs dets draws).tracks = st.tracks := by
  simp only [odometryFeedback]
  split
  · rfl
  · split
    · rfl
    · split <;> rfl

lemma map_core_set_votes (tracks : List TrackState) (i : ℕ) (v : ℚ) :
    (tracks.set i ({ tracks.getD i default with movingVotes := v })).map TrackState.core
      = tracks.map TrackState.core := by
  induction tracks generalizing i with
  | nil => simp
  | cons a t ih =>
    cases i with
    | zero => simp [TrackState.core]
    | succ n =>
      simp only [List.getD_cons_succ, List.set_cons_succ, List.map_cons, List.cons.injEq]
      exact ⟨by trivial, ih n⟩

lemma associateOne_core (fns : FloatFns) (settings : ProcessingSettings)
    (cal : RadarCalibration) (motion : VehicleMotionState) (varTerm : ℚ)
    (boxes : List OrientedBox) (acc : List TrackState × List EnhancedDetection)
    (d : EnhancedDetection) :
    ((associateOne fns settings cal motion varTerm boxes acc d).1).map TrackState.core
      = acc.1.map TrackState.core := by
  simp only [associateOne]
  split
  · rfl
  · split
    · rfl
    · split
      · exact map_core_set_votes acc.1 _ _
      · rfl

lemma associate_foldl_core (fns : FloatFns) (settings : ProcessingSettings)
    (cal : RadarCalibration) (motion : VehicleMotionState) (varTerm : ℚ)
    (boxes : List OrientedBox) (dets : List EnhancedDetection)
    (acc : List TrackState × List EnhancedDetection) :
    ((dets.foldl (associateOne fns settings cal motion varTerm boxes) acc).1).map
        TrackState.core
      = acc.1.map TrackState.core := by
  induction dets generalizing acc with
  | nil => rfl
  | cons d rest ih =>
    rw [List.foldl_cons, ih]
    exact associateOne_core fns settings cal motion varTerm boxes acc d

lemma associateDetections_core (fns : FloatFns) (settings : ProcessingSettings)
    (cal : RadarCalibration) (motion : VehicleMotionState)
    (tracksTimestamp obsTime : ℕ) (tracks : List TrackState)
    (dets : List EnhancedDetection) :
    ((associateDetections fns settings cal motion tracksTimestamp obsTime tracks
        dets).1).map TrackState.core
      = tracks.map TrackState.core := by
  simp only [associateDetections]
  split
  · rfl
  · exact associate_foldl_core fns settings cal motion _ _ dets (tracks, [])

lemma processCornerDetections_core (fns : FloatFns) (st : PipelineState)
    (sensor : SensorIndex) (ts : ℕ) (input : RawDetectionFrame)
    (draws : List (ℕ × ℕ)) :
    ((processCornerDetections fns st sensor ts input draws).1).tracks.map TrackState.core
      = st.tracks.map TrackState.core := by
  simp only [processCornerDetections]
  split
  · rfl
  · rw [odometryFeedback_tracks]
    rw [show ∀ a : PipelineState, ∀ b : List TrackState,
        ({ a with tracks := b } : PipelineState).tracks = b from fun a b => rfl]
    rw [associateDetections_core, updateSensorStatus_tracks]

lemma processFrontDetections_core (fns : FloatFns) (st : PipelineState) (ts : ℕ)
    (input : RawDetectionFrame) (draws : List (ℕ × ℕ)) :
    ((processFrontDetections fns st ts input draws).1).tracks.map TrackState.core
      = st.tracks.map TrackState.core := by
  simp only [processFrontDetections]
  split
  · rfl
  · rw [odometryFeedback_tracks]
    rw [show ∀ a : PipelineState, ∀ b : List TrackState,
        ({ a with tracks := b } : PipelineState).tracks = b from fun a b => rfl]
    rw [associateDetections_core]
    rw [show ∀ a : PipelineState, ∀ b : List TrackState,
        ({ a with tracks := b } : PipelineState).tracks = b from fun a b => rfl]
    rw [associateDetections_core, updateSensorStatus_tracks, updateSensorStatus_tracks]

/-- Claim C2, amended: a detection frame (corner or front) preserves the
cached track snapshot except for the moving-votes accumulators: the
track count and every per-track field other than movingVotes recorded by
the last track frame are unchanged, while a track frame rebuilds the
snapshot wholesale from its own input alone.  (The original claim is
refuted by claim_C2_counterexample: the association step does mutate
movingVotes.) -/
theorem claim_C2_amended (fns : FloatFns) (st : PipelineState) (sensor : SensorIndex)
    (ts tsT : ℕ) (cornerInput frontInput : RawDetectionFrame)
    (draws : List (ℕ × ℕ)) (trackInput : List RawTrackRow) :
    ((processCornerDetections fns st sensor ts cornerInput draws).1).tracks.map
        TrackState.core = st.tracks.map TrackState.core ∧
    ((processFrontDetections fns st ts frontInput draws).1).tracks.map
        TrackState.core = st.tracks.map TrackState.core ∧
    ((processTrackFusion st tsT trackInput).1).tracks = trackStatesOfInput trackInput ∧
    ((processTrackFusion st tsT trackInput).1).tracksTimestamp = tsT :=
  ⟨processCornerDetections_core fns st sensor ts cornerInput draws,
   processFrontDetections_core fns st ts frontInput draws, rfl, rfl⟩

/-- Claim C2 is false on the code: after a track frame installs one track
with movingVotes 0, processing one corner detection frame associates the
detection (stationary, probability 1) with the track and adds the vote
-1 to the cached track state: the snapshot recorded by the most recent
process_track_fusion call is mutated by a detection frame. -/
theorem claim_C2_counterexample :
    ((processTrackFusion exPipeline0 900 [exTrackRow]).1).tracks.map
        TrackState.movingVotes = [0] ∧
    ((processCornerDetections exFns ((processTrackFusion exPipeline0 900 [exTrackRow]).1)
        SensorIndex.frontLeft 1000 exCornerFrame []).1).tracks.map
        TrackState.movingVotes = [-1] := by
  constructor
  · norm_num [processTrackFusion, trackStatesOfInput, trackStateOfRow, exTrackRow,
      exPipeline0, List.filterMap]
  · norm_num [processCornerDetections, processTrackFusion, trackStatesOfInput,
      trackStateOfRow, exTrackRow, exPipeline0, exParams, exCal, exFns, exCornerFrame,
      exDetRow, updateVehicleState, initializePipeline, initPipeline,
      updateSensorStatus, mapCornerDetections, mapDetectionRow, packDetectionFlags,
      observationTime, ratTrunc, classifyDetections, detectionAngleRad, rangeRateVar,
      stdClamp, associateDetections, associateOne, bestCandidate, boxContains,
      predictedBox, detectionPositionVcs, utilClamp, odometryFeedback, collectSamples,
      estimateFromSamples, Vec2.add, Vec2.smul, Vec2.sub, SensorIndex.toIdx,
      List.filterMap, List.range_succ, max_def, decide_eq_true_eq, TrackState.core]

/-- The emission of a track-fusion frame through processTrackFusion and
appendTracks, slot by slot. -/
lemma appendTracks_emission (input : List RawTrackRow) (st : PipelineState) (ts : ℕ) :
    appendTracks ((processTrackFusion st ts input).2).tracks
      = (input.filter fun r => decide (r.status ≠ 0)).map radarTrackOfRow := by
  show appendTracks (enhancedTracksOfInput input) = _
  induction input with
  | nil => rfl
  | cons r rest ih =>
    by_cases h : r.status = 0
    · simp only [enhancedTracksOfInput, List.filterMap_cons, if_pos h,
        List.filter_cons] at ih ⊢
      simp [h, ih]
    · simp only [enhancedTracksOfInput, appendTracks, List.filterMap_cons, if_neg h,
        List.filter_cons] at ih ⊢
      have hst : (enhancedTrackOfRow r).status = r.status := rfl
      rw [hst, if_neg h]
      simp [h, ih, radarTrackOfRow]

/-- Claim C3: each record emitted for a track-fusion frame (one per slot
whose status is not Invalid, through processTrackFusion and the
downstream appendTracks conversion that builds the spec's EnhancedTrack
view) has its extents clamped to at least 0.25 and, when the input
height is zero, a height imputed by object class: 1.8 for Car (1),
Motorcycle (2) and Bicycle (9), 3.8 for Truck (3), 0.05 otherwise. -/
theorem claim_C3 (input : List RawTrackRow) (st : PipelineState) (ts : ℕ)
    (r : RawTrackRow) :
    (appendTracks ((processTrackFusion st ts input).2).tracks
      = (input.filter fun r => decide (r.status ≠ 0)).map radarTrackOfRow) ∧
    (1 / 4 ≤ (radarTrackOfRow r).length ∧ 1 / 4 ≤ (radarTrackOfRow r).width) ∧
    (r.trackHeight = 0 →
      (radarTrackOfRow r).height =
        (if r.objectClassification = 1 ∨ r.objectClassification = 2 ∨
            r.objectClassification = 9 then 9 / 5
         else if r.objectClassification = 3 then 19 / 5
         else 1 / 20)) ∧
    (r.trackHeight ≠ 0 → (radarTrackOfRow r).height = r.trackHeight) := by
  refine ⟨appendTracks_emission input st ts, ⟨le_max_right _ _, le_max_right _ _⟩, ?_, ?_⟩
  · intro h
    simp only [radarTrackOfRow, radarTrackOfEnhanced, enhancedTrackOfRow]
    rw [if_pos h]
  · intro h
    simp only [radarTrackOfRow, radarTrackOfEnhanced, enhancedTrackOfRow]
    rw [if_neg h]

/-- Witness for claim C3: a Car slot with zero height gets height 1.8 and
extents at least 0.25; a slot with explicit height keeps it. -/
theorem claim_C3_witness :
    (1 / 4 ≤ (radarTrackOfRow exZeroHeightRow).length ∧
      1 / 4 ≤ (radarTrackOfRow exZeroHeightRow).width) ∧
    (radarTrackOfRow exZeroHeightRow).height = 9 / 5 ∧
    (radarTrackOfRow exTrackRow).height = 8 / 5 := by
  have h1 := claim_C3 [] (initPipeline {}) 0 exZeroHeightRow
  have h2 := claim_C3 [] (initPipeline {}) 0 exTrackRow
  refine ⟨h1.2.1, ?_, ?_⟩
  · have h0 := h1.2.2.1 (by norm_num [exZeroHeightRow])
    rw [h0]
    norm_num [exZeroHeightRow]
  · exact h2.2.2.2 (by norm_num [exTrackRow])

/-- Claim C6: before initialize, both detection entry points return the
failure indicator, leave the pipeline state untouched and produce no
enhanced output. -/
theorem claim_C6 (fns : FloatFns) (st : PipelineState) (sensor : SensorIndex)
    (ts : ℕ) (cornerInput frontInput : RawDetectionFrame) (draws : List (ℕ × ℕ))
    (h : st.parameters = none) :
    processCornerDetections fns st sensor ts cornerInput draws = (st, false, none) ∧
    processFrontDetections fns st ts frontInput draws = (st, false, none) := by
  unfold processCornerDetections processFrontDetections
  rw [h]
  exact ⟨rfl, rfl⟩

/-- Witness for claim C6: a freshly constructed pipeline has no
parameters, so both calls fail without output or state change. -/
theorem claim_C6_witness :
    processCornerDetections exFns (initPipeline {}) SensorIndex.frontLeft 1000
        exCornerFrame [] = (initPipeline {}, false, none) ∧
    processFrontDetections exFns (initPipeline {}) 1000 exCornerFrame []
      = (initPipeline {}, false, none) :=
  claim_C6 exFns (initPipeline {}) SensorIndex.frontLeft 1000 exCornerFrame
    exCornerFrame [] rfl

/-- Claim C7: per-sensor liveness.  On a frame for an uninitialised slot
the slot is initialised with the frame timestamp and the frame is live;
on a strictly newer timestamp the slot advances, the invalid count
resets and the frame is live; otherwise the uint32 invalid count is
incremented, the stored timestamp does not advance and the frame is not
live. -/
theorem claim_C7 (st : PipelineState) (sensor : SensorIndex) (ts : ℕ)
    (hlen : sensor.toIdx < st.sensorStates.length) :
    (¬(st.sensorStates.getD sensor.toIdx default).initialized = true →
      (updateSensorStatus st sensor ts).2 = true ∧
      ((updateSensorStatus st sensor ts).1).sensorStates.getD sensor.toIdx default
        = { initialized := true, timestamp := ts, numConsecutiveInvalid := 0 }) ∧
    ((st.sensorStates.getD sensor.toIdx default).initialized = true →
      (st.sensorStates.getD sensor.toIdx default).timestamp < ts →
      (updateSensorStatus st sensor ts).2 = true ∧
      ((updateSensorStatus st sensor ts).1).sensorStates.getD sensor.toIdx default
        = { initialized := true, timestamp := ts, numConsecutiveInvalid := 0 }) ∧
    ((st.sensorStates.getD sensor.toIdx default).initialized = true →
      ts ≤ (st.sensorStates.getD sensor.toIdx default).timestamp →
      (updateSensorStatus st sensor ts).2 = false ∧
      ((updateSensorStatus st sensor ts).1).sensorStates.getD sensor.toIdx default
        = { st.sensorStates.getD sensor.toIdx default with
            numConsecutiveInvalid :=
              ((st.sensorStates.getD sensor.toIdx default).numConsecutiveInvalid + 1)
                % 2 ^ 32 }) := by
  refine ⟨?_, ?_, ?_⟩
  · intro h0
    simp only [updateSensorStatus]
    rw [if_pos (by simpa using h0)]
    exact ⟨rfl, getD_set_self _ _ _ _ hlen⟩
  · intro h0 hts
    simp only [updateSensorStatus]
    rw [if_neg (by simpa using h0), if_pos hts]
    refine ⟨rfl, ?_⟩
    rw [getD_set_self _ _ _ _ hlen, h0]
  · intro h0 hts
    simp only [updateSensorStatus]
    rw [if_neg (by simpa using h0), if_neg (by omega)]
    exact ⟨rfl, getD_set_self _ _ _ _ hlen⟩

/-- Witness for claim C7, exercising all three branches on concrete
states: a fresh slot, a newer frame, and a stale frame. -/
theorem claim_C7_witness :
    ((updateSensorStatus (initPipeline {}) SensorIndex.frontLeft 1000).2 = true ∧
      ((updateSensorStatus (initPipeline {}) SensorIndex.frontLeft 1000).1).sensorStates.getD
          SensorIndex.frontLeft.toIdx default
        = { initialized := true, timestamp := 1000, numConsecutiveInvalid := 0 }) ∧
    ((updateSensorStatus exLivePipeline SensorIndex.frontLeft 1500).2 = true ∧
      ((updateSensorStatus exLivePipeline SensorIndex.frontLeft 1500).1).sensorStates.getD
          SensorIndex.frontLeft.toIdx default
        = { initialized := true, timestamp := 1500, numConsecutiveInvalid := 0 }) ∧
    ((updateSensorStatus exLivePipeline SensorIndex.frontLeft 900).2 = false ∧
      ((updateSensorStatus exLivePipeline SensorIndex.frontLeft 900).1).sensorStates.getD
          SensorIndex.frontLeft.toIdx default
        = { exLiveState with numConsecutiveInvalid := (0 + 1) % 2 ^ 32 }) := by
  have h1 := (claim_C7 (initPipeline {}) SensorIndex.frontLeft 1000 (by decide)).1
    (by simp [initPipeline, SensorIndex.toIdx])
  have h2 := (claim_C7 exLivePipeline SensorIndex.frontLeft 1500 (by decide)).2.1
    (by simp [exLivePipeline, exLiveState, initPipeline, SensorIndex.toIdx])
    (by simp [exLivePipeline, exLiveState, initPipeline, SensorIndex.toIdx])
  have h3 := (claim_C7 exLivePipeline SensorIndex.frontLeft 900 (by decide)).2.2
    (by simp [exLivePipeline, exLiveState, initPipeline, SensorIndex.toIdx])
    (by simp [exLivePipeline, exLiveState, initPipeline, SensorIndex.toIdx])
  refine ⟨h1, h2, h3.1, ?_⟩
  rw [h3.2]
  rfl

/-- Every index draws one of the three batch samples or the default. -/
lemma exGetD (k : ℕ) :
    exSamples.getD k default = ⟨1, 0, -5⟩ ∨ exSamples.getD k default = ⟨0, 1, -2⟩ ∨
    exSamples.getD k default = ⟨1, 0, 0⟩ ∨ exSamples.getD k default = ⟨0, 0, 0⟩ := by
  match k with
  | 0 => exact Or.inl rfl
  | 1 => exact Or.inr (Or.inl rfl)
  | 2 => exact Or.inr (Or.inr (Or.inl rfl))
  | (n + 3) =>
    refine Or.inr (Or.inr (Or.inr ?_))
    have h : exSamples.length ≤ n + 3 := by simp [exSamples]
    rw [List.getD_eq_default _ _ h]
    rfl

lemma exCount2 : countInliers exSamples 0 2 (ransacThreshold {}) = 2 := by
  norm_num [countInliers, exSamples, List.countP_cons, List.countP_nil,
    decide_eq_true_eq, predictedRangeRate, ransacThreshold, max_def]

set_option maxHeartbeats 1000000 in
lemma exSolve_mem (i j : ℕ) :
    solvePair (exSamples.getD i default) (exSamples.getD j default) = none ∨
    solvePair (exSamples.getD i default) (exSamples.getD j default) = some (5, 2) ∨
    solvePair (exSamples.getD i default) (exSamples.getD j default) = some (0, 2) := by
  rcases exGetD i with h1 | h1 | h1 | h1 <;>
    rcases exGetD j with h2 | h2 | h2 | h2 <;>
    rw [h1, h2] <;>
    norm_num [solvePair]

set_option maxHeartbeats 1000000 in
lemma exStep_mem (best : RansacBest)
    (hb : best = ⟨0, 0, 0⟩ ∨ best = ⟨5, 2, 2⟩ ∨ best = ⟨0, 2, 2⟩) (i j : ℕ) :
    ransacStep exSamples (ransacThreshold {}) best (i, j) = ⟨0, 0, 0⟩ ∨
    ransacStep exSamples (ransacThreshold {}) best (i, j) = ⟨5, 2, 2⟩ ∨
    ransacStep exSamples (ransacThreshold {}) best (i, j) = ⟨0, 2, 2⟩ := by
  rcases exSolve_mem i j with hs | hs | hs <;>
    unfold ransacStep <;> dsimp only <;> rw [hs] <;>
    rcases hb with rfl | rfl | rfl <;>
    norm_num [exCount, exCount2]

/-- Whatever index pairs the RNG produces, the RANSAC best over the batch
is one of three values, with vLon 0 or 5 and at most 2 inliers. -/
lemma exLoop_mem (draws : List (ℕ × ℕ)) :
    ransacLoop exSamples (ransacThreshold {}) draws = ⟨0, 0, 0⟩ ∨
    ransacLoop exSamples (ransacThreshold {}) draws = ⟨5, 2, 2⟩ ∨
    ransacLoop exSamples (ransacThreshold {}) draws = ⟨0, 2, 2⟩ := by
  unfold ransacLoop
  have h : ∀ (ds : List (ℕ × ℕ)) (best : RansacBest),
      (best = ⟨0, 0, 0⟩ ∨ best = ⟨5, 2, 2⟩ ∨ best = ⟨0, 2, 2⟩) →
      (ds.foldl (ransacStep exSamples (ransacThreshold {})) best = ⟨0, 0, 0⟩ ∨
       ds.foldl (ransacStep exSamples (ransacThreshold {})) best = ⟨5, 2, 2⟩ ∨
       ds.foldl (ransacStep exSamples (ransacThreshold {})) best = ⟨0, 2, 2⟩) := by
    intro ds
    induction ds with
    | nil => intro best hb; simpa using hb
    | cons d rest ih =>
      intro best hb
      obtain ⟨i, j⟩ := d
      rw [List.foldl_cons]
      exact ih _ (exStep_mem best hb i j)
  exact h draws ⟨0, 0, 0⟩ (Or.inl rfl)

lemma exFitSet_any (draws : List (ℕ × ℕ)) : fitSet {} exSamples draws = exSamples := by
  simp only [fitSet]
  rcases exLoop_mem draws with h | h | h <;> rw [h] <;> norm_num [minInliersU]

lemma exEst_any (draws : List (ℕ × ℕ)) :
    (estimateFromSamples {} 1234 exSamples draws).map OdometryEstimate.vLon
      = some (5 / 2) := by
  simp only [estimateFromSamples]
  rw [exFitSet_any draws]
  norm_num [exSamples, leastSquares2, normalDet, lsA11, lsA12, lsA22, lsB1, lsB2]

/-- Draw-independence of the C1 divergence: for EVERY draw sequence the
RNG can produce, the best RANSAC pair of the failing batch has vLon 0 or
5 with fewer inliers than minInliers, yet the written estimate has
vLon = 5/2 (the all-sample least-squares fit). -/
theorem exAnyDraws (draws : List (ℕ × ℕ)) :
    ((ransacLoop exSamples (ransacThreshold {}) draws).vLon = 0 ∨
      (ransacLoop exSamples (ransacThreshold {}) draws).vLon = 5) ∧
    (ransacLoop exSamples (ransacThreshold {}) draws).inliers < minInliersU {} ∧
    (estimateFromSamples {} 1234 exSamples draws).map OdometryEstimate.vLon
      = some (5 / 2) := by
  refine ⟨?_, ?_, exEst_any draws⟩ <;>
    rcases exLoop_mem draws with h | h | h <;> rw [h] <;> norm_num [minInliersU]

end RadarProc
